import Mathlib

/-!
A shallow embedding of the `space.js` canvas animation (and the star layer of
`script.js`) from the portfolio repository.  JS numbers are modelled as exact
rationals, `Math.random()` as an explicit stream of draws threaded through
every operation, and `Math.cos` / `Math.sin` / `Math.PI` as an abstract `Trig`
record, since the claims under verification are structural rather than about
floating-point rounding.  Each definition carries the name of the source
function it embeds.
-/

namespace Space

/-! ### Configuration constants (`CONFIG` in space.js, lines 18-30) -/

def maxStars : ℕ := 250

def maxMeteors : ℕ := 6

def meteorSpawnInterval : ℚ := 800

def maxMeteorTrail : ℕ := 8

def maxParticles : ℕ := 180

def lightningChancePerSecond : ℚ := 0.6

def starTwinkleSpeed : ℚ := 0.0025

def timeScale : ℚ := 0.75

/-! ### Utility helpers (space.js lines 33-41) -/

/-- Embeds `rand(min, max)` where `u` stands for the `Math.random()` draw. -/
def rand (u lo hi : ℚ) : ℚ := u * (hi - lo) + lo

/-- Embeds `randInt(min, max) = Math.floor(rand(min, max + 1))`. -/
def randInt (u : ℚ) (lo hi : ℤ) : ℤ := ⌊rand u (lo : ℚ) ((hi : ℚ) + 1)⌋

/-- Embeds `clamp(v, a, b) = Math.max(a, Math.min(b, v))`. -/
def clamp (v a b : ℚ) : ℚ := max a (min b v)

/-- The `Math.random()` source: an infinite stream of draws plus a cursor. -/
structure Rng where
  seq : ℕ → ℚ
  idx : ℕ

def Rng.next (g : Rng) : ℚ × Rng := (g.seq g.idx, ⟨g.seq, g.idx + 1⟩)

/-- Advance the cursor past `n` draws whose values are irrelevant to state
(used for render-only randomness such as the meteor head-glow color). -/
def Rng.advance (g : Rng) (n : ℕ) : Rng := ⟨g.seq, g.idx + n⟩

/-- A well-formed random stream: every draw lies in `[0, 1)`. -/
def ValidSeq (f : ℕ → ℚ) : Prop := ∀ n, 0 ≤ f n ∧ f n < 1

/-- Abstract interface for `Math.cos`, `Math.sin`, `Math.PI`. -/
structure Trig where
  cos : ℚ → ℚ
  sin : ℚ → ℚ
  pi : ℚ

/-! ### Entity data model -/

/-- A star of space.js (`initStars`, lines 92-105). -/
structure Star where
  x : ℚ
  y : ℚ
  size : ℚ
  baseAlpha : ℚ
  twinklePhase : ℚ
  twinkleSpeed : ℚ
deriving DecidableEq

/-- A big-bang particle (space.js lines 129-139 and 434-439); the `color`
string `hsl(hue,100%,lightness%)` is modelled by its two random components. -/
structure Particle where
  x : ℚ
  y : ℚ
  vx : ℚ
  vy : ℚ
  life : ℚ
  age : ℚ
  size : ℚ
  hue : ℤ
  lightness : ℤ
deriving DecidableEq

/-- A trail or path point with fields x and y. -/
structure Pt where
  x : ℚ
  y : ℚ
deriving DecidableEq

/-- A meteor (space.js line 160). -/
structure Meteor where
  x : ℚ
  y : ℚ
  vx : ℚ
  vy : ℚ
  life : ℚ
  age : ℚ
  trail : List Pt
  size : ℚ
  hue : ℤ
deriving DecidableEq

/-- A lightning bolt (space.js line 212). -/
structure Lightning where
  points : List Pt
  age : ℚ
  life : ℚ
  alpha : ℚ
deriving DecidableEq

/-- The size-dependent radial gradient of `createBlackHoleGradient`
(space.js lines 109-117), recorded by its geometry. -/
structure Gradient where
  cx : ℚ
  cy : ℚ
  r0 : ℚ
  r1 : ℚ
deriving DecidableEq

/-- The whole mutable module state of space.js. `bigBangTime = none` stands
for the initial `-Infinity`. -/
structure Scene where
  width : ℚ
  height : ℚ
  cx : ℚ
  cy : ℚ
  dpr : ℚ
  canvasW : ℚ
  canvasH : ℚ
  gradient : Gradient
  stars : List Star
  particles : List Particle
  meteors : List Meteor
  meteorPool : List Meteor
  lightnings : List Lightning
  bigBangTime : Option ℚ
  lastTime : ℚ
  lastMeteorSpawn : ℚ
  rng : Rng

/-! ### Surface management -/

/-- Embeds `createBlackHoleGradient` (space.js lines 109-117): radius
`min(width,height) * 0.12`, inner stop at `r * 0.06`. -/
def createBlackHoleGradient (w h cx cy : ℚ) : Gradient :=
  let r := min w h * 0.12
  ⟨cx, cy, r * 0.06, r⟩

/-- Embeds `resize` (space.js lines 59-76).  The CSS size and device pixel ratio are
environment inputs, passed here as parameters. -/
def resize (cssW cssH dprIn : ℚ) (s : Scene) : Scene :=
  let d := max 1 dprIn
  let w : ℚ := ((max 1 ⌊cssW⌋ : ℤ) : ℚ)
  let h : ℚ := ((max 1 ⌊cssH⌋ : ℤ) : ℚ)
  { s with
    dpr := d
    width := w
    height := h
    canvasW := ((⌊w * d⌋ : ℤ) : ℚ)
    canvasH := ((⌊h * d⌋ : ℤ) : ℚ)
    cx := w / 2
    cy := h / 2
    gradient := createBlackHoleGradient w h (w / 2) (h / 2) }

/-! ### Stars -/

/-- One star of `initStars` (space.js lines 95-103); six `Math.random()`
draws in source order. -/
def mkStar (T : Trig) (w h : ℚ) (g : Rng) : Star × Rng :=
  let (ux, g) := g.next
  let (uy, g) := g.next
  let (us, g) := g.next
  let (ua, g) := g.next
  let (up, g) := g.next
  let (ut, g) := g.next
  ({ x := ux * w
     y := uy * h
     size := us * 1.4 + 0.2
     baseAlpha := ua * 0.8 + 0.2
     twinklePhase := up * T.pi * 2
     twinkleSpeed := (ut * 0.8 + 0.2) * starTwinkleSpeed }, g)

/-- Embeds `initStars` (space.js lines 92-105), generating `n` stars in order. -/
def initStars (T : Trig) (w h : ℚ) : ℕ → Rng → List Star × Rng
  | 0, g => ([], g)
  | n + 1, g =>
    let (st, g) := mkStar T w h g
    let (rest, g) := initStars T w h n g
    (st :: rest, g)

/-- Rendered star opacity in space.js `drawStars` (lines 249-250):
`clamp(baseAlpha + sin(t * twinkleSpeed * timeScale + phase) * 0.35, 0.05, 1)`. -/
def starRenderAlpha (T : Trig) (t : ℚ) (s : Star) : ℚ :=
  clamp (s.baseAlpha + T.sin (t * s.twinkleSpeed * timeScale + s.twinklePhase) * 0.35) 0.05 1

/-! ### Big-bang particles -/

/-- One burst particle of `triggerBigBang` (space.js lines 126-139); six
draws in source order: angle, speed, life, size, hue, lightness. -/
def mkBurstParticle (T : Trig) (cx cy : ℚ) (g : Rng) : Particle × Rng :=
  let (ua, g) := g.next
  let angle := ua * T.pi * 2
  let (us, g) := g.next
  let speed := rand us 80 480
  let (ul, g) := g.next
  let (usz, g) := g.next
  let (uh, g) := g.next
  let (ull, g) := g.next
  ({ x := cx
     y := cy
     vx := T.cos angle * speed * timeScale
     vy := T.sin angle * speed * timeScale
     life := rand ul 700 1400
     age := 0
     size := usz * 2.5 + 0.6
     hue := randInt uh 20 60
     lightness := randInt ull 50 70 }, g)

/-- The burst loop of `triggerBigBang`, pushing `n` particles in order. -/
def mkBurst (T : Trig) (cx cy : ℚ) : ℕ → Rng → List Particle × Rng
  | 0, g => ([], g)
  | n + 1, g =>
    let (p, g) := mkBurstParticle T cx cy g
    let (rest, g) := mkBurst T cx cy n g
    (p :: rest, g)

/-- Embeds `triggerBigBang` (space.js lines 122-142): resets the particle pool to
`min(maxParticles, 140)` fresh particles and records the burst time.
`pulseHero` only touches the optional companion DOM element. -/
def triggerBigBang (T : Trig) (now : ℚ) (s : Scene) : Scene :=
  let count := min maxParticles 140
  let r := mkBurst T s.cx s.cy count s.rng
  { s with bigBangTime := some now, particles := r.1, rng := r.2 }

/-- Per-particle step of `drawParticles` (space.js lines 285-297): age first,
splice out on `age >= life`, otherwise Euler-integrate (y uses the updated
vy, exactly as in the source). -/
def stepParticle (dt : ℚ) (p : Particle) : Option Particle :=
  let p := { p with age := p.age + dt }
  if p.life ≤ p.age then none
  else
    let vy := p.vy + 600 * (dt / 1000) * 0.45 * timeScale
    some { p with
      vy := vy
      x := p.x + p.vx * (dt / 1000) * timeScale
      y := p.y + vy * (dt / 1000) * timeScale }

/-- Embeds `drawParticles` (space.js lines 281-306) restricted to its state effect;
the backward splice loop keeps survivors in list order. -/
def drawParticles (dt : ℚ) (ps : List Particle) : List Particle :=
  ps.filterMap (stepParticle dt)

/-- Rendered particle opacity (space.js lines 292, 298-299): `1 - age/life`. -/
def particleRenderAlpha (p : Particle) : ℚ := 1 - p.age / p.life

/-- Rendered particle radius (space.js line 302): `size * (1 - t) + 0.3`. -/
def particleRenderSize (p : Particle) : ℚ := p.size * (1 - p.age / p.life) + 0.3

/-- The post-burst trickle particle of `loop` (space.js lines 434-439);
eight draws in source order. -/
def mkTrickle (cx cy : ℚ) (g : Rng) : Particle × Rng :=
  let (ux, g) := g.next
  let (uy, g) := g.next
  let (uvx, g) := g.next
  let (uvy, g) := g.next
  let (ul, g) := g.next
  let (usz, g) := g.next
  let (uh, g) := g.next
  let (ull, g) := g.next
  ({ x := cx + rand ux (-20) 20
     y := cy + rand uy (-20) 20
     vx := rand uvx (-160) 160 * timeScale
     vy := rand uvy (-180) 180 * timeScale
     life := rand ul 200 900
     age := 0
     size := rand usz 0.6 1.6
     hue := randInt uh 20 50
     lightness := randInt ull 60 80 }, g)

/-! ### Meteors -/

/-- The fresh meteor literal of `createMeteor` (space.js lines 160-162). -/
def freshMeteor : Meteor :=
  { x := 0, y := 0, vx := 0, vy := 0, life := 0, age := 0, trail := [], size := 2, hue := 40 }

/-- Embeds `createMeteor` (space.js lines 156-193).  Returns early when the live
list is full; otherwise reuses the recycle pool (`Array.pop`, i.e. the last
element) before allocating, aims the meteor by the weighted random branch,
and primes the cleared trail with the spawn point. -/
def createMeteor (T : Trig) (w h : ℚ) (ms pool : List Meteor) (g : Rng) :
    List Meteor × List Meteor × Rng :=
  if maxMeteors ≤ ms.length then (ms, pool, g)
  else
    let (m, pool) :=
      match pool.getLast? with
      | some m => (m, pool.dropLast)
      | none => (freshMeteor, pool)
    let (uside, g) := g.next
    let (m, g) :=
      if uside < 0.6 then
        let (ux, g) := g.next
        let (ua, g) := g.next
        let (ud, g) := g.next
        let angle := rand ua (T.pi * 0.15) (T.pi * 0.35)
        let dir : ℚ := if ud < 0.5 then 1 else -1
        ({ m with
           x := rand ux (-w * 0.2) (w * 1.2)
           y := -20
           vx := T.cos angle * 900 * dir * timeScale
           vy := T.sin angle * 900 * timeScale }, g)
      else
        let (ut, g) := g.next
        if ut < 0.5 then
          let (uy, g) := g.next
          let (uvx, g) := g.next
          let (uvy, g) := g.next
          ({ m with
             x := -30
             y := rand uy 0 h
             vx := rand uvx 600 1100 * timeScale
             vy := rand uvy (-200) 200 * timeScale }, g)
        else
          let (uy, g) := g.next
          let (uvx, g) := g.next
          let (uvy, g) := g.next
          ({ m with
             x := w + 30
             y := rand uy 0 h
             vx := -(rand uvx 600 1100) * timeScale
             vy := rand uvy (-200) 200 * timeScale }, g)
    let (ul, g) := g.next
    let (usz, g) := g.next
    let (uh, g) := g.next
    let m := { m with
      life := rand ul 900 2200
      age := 0
      size := rand usz 1 2.6
      hue := randInt uh 20 45
      trail := [⟨m.x, m.y⟩] }
    (ms.concat m, pool, g)

/-- Physics half of the per-meteor step in `drawMeteors` (space.js lines
314-319): age, gravity on vy, then position (y uses the updated vy). -/
def integrateMeteor (dt : ℚ) (m : Meteor) : Meteor :=
  let vy := m.vy + 300 * (dt / 1000) * timeScale
  { m with
    age := m.age + dt
    vy := vy
    x := m.x + m.vx * (dt / 1000) * timeScale
    y := m.y + vy * (dt / 1000) * timeScale }

/-- Trail half of the per-meteor step (space.js lines 320-330): push a new
point when the squared displacement from the last trail point exceeds 16
(shifting the oldest out above the cap), otherwise move the last point. -/
def updateTrail (m : Meteor) : Meteor :=
  match m.trail.getLast? with
  | none => m
  | some last =>
    if (m.x - last.x) ^ 2 + (m.y - last.y) ^ 2 > 16 then
      let t := m.trail.concat ⟨m.x, m.y⟩
      { m with trail := if maxMeteorTrail < t.length then t.tail else t }
    else
      { m with trail := m.trail.dropLast.concat ⟨m.x, m.y⟩ }

def updateMeteor (dt : ℚ) (m : Meteor) : Meteor := updateTrail (integrateMeteor dt m)

/-- Removal test of `drawMeteors` (space.js line 355): life over, or left,
right, or bottom margin exceeded.  The source has no top-margin test. -/
def meteorRemoved (w h : ℚ) (m : Meteor) : Bool :=
  m.life < m.age || m.x < -200 || w + 200 < m.x || h + 200 < m.y

/-- Embeds `drawMeteors` (space.js lines 308-361) restricted to its state effect:
every live meteor is stepped; survivors stay in order; removed meteors are
pushed onto the recycle pool (the backward splice loop pushes them in
reverse list order).  The head-glow color consumes two `Math.random()`
draws per live meteor (line 350). -/
def drawMeteors (dt w h : ℚ) (ms pool : List Meteor) (g : Rng) :
    List Meteor × List Meteor × Rng :=
  let upd := ms.map (updateMeteor dt)
  (upd.filter (fun m => !meteorRemoved w h m),
   pool ++ (upd.filter (fun m => meteorRemoved w h m)).reverse,
   g.advance (2 * ms.length))

/-! ### Lightning -/

/-- The segment loop of `spawnLightning` (space.js lines 205-211): `n`
jagged points after the start point, two draws each. -/
def mkBoltPoints (lastX lastY step : ℚ) : ℕ → Rng → List Pt × Rng
  | 0, g => ([], g)
  | n + 1, g =>
    let (ux, g) := g.next
    let px := lastX + rand ux (-80) 80
    let (uy, g) := g.next
    let py := lastY + step + rand uy (-20) 40
    let (rest, g) := mkBoltPoints px py step n g
    (⟨px, py⟩ :: rest, g)

/-- Embeds `spawnLightning` (space.js lines 197-214): jagged path of
`segments + 1` points with `segments = randInt(4, 8)`, then push and shift
the oldest bolt out when over the cap of 6. -/
def spawnLightning (w h : ℚ) (ls : List Lightning) (g : Rng) :
    List Lightning × Rng :=
  let (ux, g) := g.next
  let startX := rand ux 0 w
  let (uy, g) := g.next
  let startY := rand uy 0 (h * 0.2)
  let (ue, g) := g.next
  let endY := rand ue (h * 0.2) (h * 0.8)
  let (us, g) := g.next
  let segments := (randInt us 4 8).toNat
  let (pts, g) := mkBoltPoints startX startY ((endY - startY) / (segments : ℚ)) segments g
  let (ul, g) := g.next
  let bolt : Lightning := ⟨⟨startX, startY⟩ :: pts, 0, rand ul 120 260, 1⟩
  let ls := ls.concat bolt
  ((if 6 < ls.length then ls.tail else ls), g)

/-- Per-bolt step of `drawLightning` (space.js lines 367-386): age, render,
splice out once `age > life`. -/
def stepLightning (dt : ℚ) (L : Lightning) : Option Lightning :=
  let L := { L with age := L.age + dt }
  if L.life < L.age then none else some L

/-- Embeds `drawLightning` (space.js lines 363-388) restricted to its state effect. -/
def drawLightning (dt : ℚ) (ls : List Lightning) : List Lightning :=
  ls.filterMap (stepLightning dt)

/-- Rendered bolt opacity (space.js line 370): `clamp(1 - age/life, 0, 1)`. -/
def lightningRenderAlpha (L : Lightning) : ℚ := clamp (1 - L.age / L.life) 0 1

/-! ### The frame loop (`loop`, space.js lines 391-443) -/

/-- Clock step (lines 394-397): raw delta, 48 ms ceiling, stamp update. -/
def frameClock (now : ℚ) (s : Scene) : Scene × ℚ :=
  ({ s with lastTime := now }, min (now - s.lastTime) 48)

/-- Meteor spawn timer (lines 400-403); the randomized interval draw happens
every frame. -/
def frameMeteorSpawn (T : Trig) (now : ℚ) (s : Scene) : Scene :=
  let (u, g) := s.rng.next
  if rand u 200 meteorSpawnInterval < now - s.lastMeteorSpawn then
    let (ms, pool, g) := createMeteor T s.width s.height s.meteors s.meteorPool g
    { s with meteors := ms, meteorPool := pool, lastMeteorSpawn := now, rng := g }
  else { s with rng := g }

/-- Probabilistic lightning spawn (lines 406-408). -/
def frameLightningSpawn (cdt : ℚ) (s : Scene) : Scene :=
  let (u, g) := s.rng.next
  if u < lightningChancePerSecond * (cdt / 1000) then
    let (ls, g) := spawnLightning s.width s.height s.lightnings g
    { s with lightnings := ls, rng := g }
  else { s with rng := g }

/-- The paint pass (lines 423-428).  `drawBackground`, `drawStars` and
`drawBlackHole` mutate no state in space.js; the three entity draws do. -/
def framePaint (cdt : ℚ) (s : Scene) : Scene :=
  let ps := drawParticles cdt s.particles
  let (ms, pool, g) := drawMeteors cdt s.width s.height s.meteors s.meteorPool s.rng
  let ls := drawLightning cdt s.lightnings
  { s with particles := ps, meteors := ms, meteorPool := pool, lightnings := ls, rng := g }

/-- Post-burst trickle (lines 431-442): within 1200 ms of the last burst,
with probability 0.2, push one ember and shift the oldest particle out when
over the cap. -/
def frameTrickle (now : ℚ) (s : Scene) : Scene :=
  match s.bigBangTime with
  | none => s
  | some bb =>
    if now - bb < 1200 then
      let (u, g) := s.rng.next
      if u < 0.2 then
        let (p, g) := mkTrickle s.cx s.cy g
        let ps := s.particles.concat p
        { s with particles := if maxParticles < ps.length then ps.tail else ps, rng := g }
      else { s with rng := g }
    else s

/-- One whole frame of `loop` (space.js lines 391-443), with no companion
hero element present (its absence draws no randomness and mutates no scene
state). -/
def loopFrame (T : Trig) (now : ℚ) (s : Scene) : Scene :=
  let (s1, cdt) := frameClock now s
  frameTrickle now (framePaint cdt (frameLightningSpawn cdt (frameMeteorSpawn T now s1)))

/-- The external events that can reach the scene between or at frames. -/
inductive SpaceEvent where
  | frame (now : ℚ)
  | burst (now : ℚ)
  | setSurface (cssW cssH dprIn : ℚ)

def stepEvent (T : Trig) (s : Scene) (e : SpaceEvent) : Scene :=
  match e with
  | .frame now => loopFrame T now s
  | .burst now => triggerBigBang T now s
  | .setSurface cw ch d => resize cw ch d s

def runEvents (T : Trig) (s : Scene) (es : List SpaceEvent) : Scene :=
  es.foldl (stepEvent T) s

/-- The module state as it stands before `init` runs, then resized: all
pools empty, trackers at their initial values (space.js lines 91-221). -/
def initSurface (cssW cssH dprIn : ℚ) (g : Rng) : Scene :=
  resize cssW cssH dprIn
    { width := 0, height := 0, cx := 0, cy := 0, dpr := 1, canvasW := 0, canvasH := 0
      gradient := ⟨0, 0, 0, 0⟩, stars := [], particles := [], meteors := []
      meteorPool := [], lightnings := [], bigBangTime := none
      lastTime := 0, lastMeteorSpawn := 0, rng := g }

/-- Embeds `init` (space.js lines 224-234): resize, seed the stars, seed two
meteors; the delayed initial big bang is a later `SpaceEvent.burst`. -/
def initScene (T : Trig) (cssW cssH dprIn now : ℚ) (g : Rng) : Scene :=
  let s1 := initSurface cssW cssH dprIn g
  let st := initStars T s1.width s1.height maxStars g
  let c1 := createMeteor T s1.width s1.height [] [] st.2
  let c2 := createMeteor T s1.width s1.height c1.1 c1.2.1 c1.2.2
  { s1 with stars := st.1, meteors := c2.1, meteorPool := c2.2.1, lastTime := now, rng := c2.2.2 }

/-! ### The star layer of `script.js` -/

/-- A star of script.js (lines 14-23). -/
structure SStar where
  x : ℚ
  y : ℚ
  r : ℚ
  alpha : ℚ
  dx : ℚ
  dy : ℚ
deriving DecidableEq

/-- The per-axis wrap of script.js `drawStars` (lines 38-41): the two `if`s
run in sequence, the second seeing the first's write. -/
def wrap1D (w v : ℚ) : ℚ :=
  let v1 := if v < 0 then w else v
  if w < v1 then 0 else v1

/-- The alpha clamp of script.js `drawStars` (lines 43-44). -/
def clamp01 (a : ℚ) : ℚ :=
  let a1 := if a < 0 then 0 else a
  if 1 < a1 then 1 else a1

/-- The movement-and-wrap half of script.js `drawStars` (lines 36-41). -/
def sWrapStar (w h : ℚ) (s : SStar) : SStar :=
  { s with x := wrap1D w (s.x + s.dx), y := wrap1D h (s.y + s.dy) }

/-- One full per-star update of script.js `drawStars` (lines 36-44): move,
wrap, jitter alpha by `(Math.random() - 0.5) * 0.02`, clamp into `[0,1]`. -/
def sStepStar (w h u : ℚ) (s : SStar) : SStar :=
  let s := sWrapStar w h s
  { s with alpha := clamp01 (s.alpha + (u - 0.5) * 0.02) }

/-- Rendered opacity in script.js `drawStars` (line 34): the star's `alpha`
field as it stands at the start of the update. -/
def sStarRenderAlpha (s : SStar) : ℚ := s.alpha

/-! ### Scene invariants under verification -/

/-- Capacity ceilings of the four entity pools, including the total number
of meteor objects ever allocated (live plus recycle pool). -/
def PoolBounds (s : Scene) : Prop :=
  s.meteors.length ≤ maxMeteors ∧
  s.meteors.length + s.meteorPool.length ≤ maxMeteors ∧
  s.particles.length ≤ maxParticles ∧
  s.lightnings.length ≤ 6 ∧
  s.stars.length = maxStars

/-- Every meteor trail, live or pooled, respects the trail cap. -/
def TrailBound (s : Scene) : Prop :=
  (∀ m ∈ s.meteors, m.trail.length ≤ maxMeteorTrail) ∧
  ∀ m ∈ s.meteorPool, m.trail.length ≤ maxMeteorTrail

/-- Every meteor trail, live or pooled, is non-empty. -/
def TrailNonempty (s : Scene) : Prop :=
  (∀ m ∈ s.meteors, m.trail ≠ []) ∧ ∀ m ∈ s.meteorPool, m.trail ≠ []

/-- Every lightning bolt has at least two path points. -/
def BoltNonempty (s : Scene) : Prop := ∀ L ∈ s.lightnings, 2 ≤ L.points.length

/-! ### Concrete sample values for evaluating the development -/

def T0 : Trig := ⟨fun _ => 1, fun _ => 0, 3⟩

def g0 : Rng := ⟨fun _ => 1/2, 0⟩

def star0 : Star := ⟨90, 10, 1, 1/2, 0, 1/1000⟩

/-- A meteor hovering more than 200 px above the top edge. -/
def cexMeteor : Meteor :=
  { x := 100, y := -300, vx := 0, vy := 0, life := 1000, age := 0
    trail := [⟨100, -300⟩], size := 2, hue := 40 }

def sampleParticle : Particle := ⟨0, 0, 10, 10, 1000, 0, 1, 30, 60⟩

def sampleMeteor : Meteor :=
  { x := 0, y := 0, vx := 100, vy := 50, life := 1500, age := 0
    trail := [⟨0, 0⟩], size := 2, hue := 30 }

def sampleBolt : Lightning := ⟨[⟨0, 0⟩, ⟨5, 40⟩], 0, 200, 1⟩

/-- A small populated scene on a 100 x 100 surface. -/
def sceneSmall : Scene :=
  { width := 100, height := 100, cx := 50, cy := 50, dpr := 1
    canvasW := 100, canvasH := 100
    gradient := createBlackHoleGradient 100 100 50 50
    stars := [star0], particles := [sampleParticle]
    meteors := [sampleMeteor], meteorPool := [], lightnings := [sampleBolt]
    bigBangTime := none, lastTime := 0, lastMeteorSpawn := 0, rng := g0 }

/-- A scene carrying the full fixed-size star array. -/
def sceneFull : Scene :=
  { sceneSmall with stars := List.replicate maxStars star0 }

/-- A script.js star near the right edge of a 100 x 100 surface. -/
def sStar0 : SStar := ⟨95, 5, 1, 1/2, 3, -2⟩

/-! ### Basic list lemmas -/

theorem length_pushShift {α : Type} (l : List α) (a : α) (cap : ℕ) (h : l.length ≤ cap) :
    (if cap < (l.concat a).length then (l.concat a).tail else l.concat a).length ≤ cap := by
  split
  · simpa [List.length_tail, List.length_concat] using h
  · next hc =>
    simp only [List.length_concat] at hc ⊢
    omega

theorem length_filter_partition {α : Type} (p : α → Bool) (l : List α) :
    (l.filter p).length + (l.filter (fun a => !p a)).length = l.length := by
  induction l with
  | nil => rfl
  | cons a l ih =>
    by_cases hpa : p a <;> simp [List.filter_cons, hpa, ← ih] <;> omega

theorem concat_ne_nil {α : Type} (l : List α) (a : α) : l.concat a ≠ [] := by
  simp [List.concat_eq_append]

/-! ### Particle step lemmas -/

theorem stepParticle_some (dt : ℚ) (p p' : Particle) (h : stepParticle dt p = some p') :
    p'.age = p.age + dt ∧ p'.life = p.life ∧ p'.size = p.size ∧ p'.age < p'.life ∧
    p'.vy = p.vy + 600 * (dt / 1000) * 0.45 * timeScale ∧
    p'.x = p.x + p.vx * (dt / 1000) * timeScale ∧
    p'.y = p.y + (p.vy + 600 * (dt / 1000) * 0.45 * timeScale) * (dt / 1000) * timeScale := by
  simp only [stepParticle] at h
  split at h
  · exact absurd h (by simp)
  · next hc =>
    simp only [Option.some.injEq] at h
    subst h
    simp at hc ⊢
    linarith

theorem stepParticle_none_iff (dt : ℚ) (p : Particle) :
    stepParticle dt p = none ↔ p.life ≤ p.age + dt := by
  simp only [stepParticle]
  split
  · next hc => simp at hc ⊢; linarith
  · next hc => simp at hc ⊢; linarith

theorem drawParticles_length_le (dt : ℚ) (ps : List Particle) :
    (drawParticles dt ps).length ≤ ps.length :=
  List.length_filterMap_le _ _

theorem drawParticles_mem (dt : ℚ) (ps : List Particle) (p' : Particle)
    (h : p' ∈ drawParticles dt ps) :
    ∃ p ∈ ps, stepParticle dt p = some p' := by
  simpa [drawParticles, List.mem_filterMap] using h

/-! ### Meteor step lemmas -/

theorem integrateMeteor_fields (dt : ℚ) (m : Meteor) :
    (integrateMeteor dt m).age = m.age + dt ∧ (integrateMeteor dt m).life = m.life ∧
    (integrateMeteor dt m).trail = m.trail ∧
    (integrateMeteor dt m).x = m.x + m.vx * (dt / 1000) * timeScale ∧
    (integrateMeteor dt m).y = m.y + (m.vy + 300 * (dt / 1000) * timeScale) * (dt / 1000) * timeScale ∧
    (integrateMeteor dt m).vy = m.vy + 300 * (dt / 1000) * timeScale ∧
    (integrateMeteor dt m).vx = m.vx := by
  simp [integrateMeteor]

theorem updateTrail_fields (m : Meteor) :
    (updateTrail m).x = m.x ∧ (updateTrail m).y = m.y ∧ (updateTrail m).age = m.age ∧
    (updateTrail m).life = m.life ∧ (updateTrail m).vx = m.vx ∧ (updateTrail m).vy = m.vy := by
  unfold updateTrail
  split
  · simp
  · split <;> simp

theorem updateMeteor_age (dt : ℚ) (m : Meteor) :
    (updateMeteor dt m).age = m.age + dt ∧ (updateMeteor dt m).life = m.life := by
  unfold updateMeteor
  obtain ⟨-, -, hage, hlife, -, -⟩ := updateTrail_fields (integrateMeteor dt m)
  obtain ⟨h3, h4, -, -, -, -, -⟩ := integrateMeteor_fields dt m
  exact ⟨hage.trans h3, hlife.trans h4⟩

theorem updateTrail_length (m : Meteor) (h : m.trail.length ≤ maxMeteorTrail) :
    (updateTrail m).trail.length ≤ maxMeteorTrail := by
  unfold updateTrail
  split
  · exact h
  · split
    · exact length_pushShift m.trail ⟨m.x, m.y⟩ maxMeteorTrail h
    · show (m.trail.dropLast.concat _).length ≤ maxMeteorTrail
      simp only [List.length_concat, List.length_dropLast, maxMeteorTrail] at h ⊢
      omega

theorem updateTrail_ne_nil (m : Meteor) (h : m.trail ≠ []) :
    (updateTrail m).trail ≠ [] := by
  unfold updateTrail
  split
  · exact h
  · split
    · next hcap =>
      show (if maxMeteorTrail < (m.trail.concat _).length then _ else _) ≠ []
      split
      · next hbig =>
        apply List.length_pos.mp
        simp only [List.length_tail, List.length_concat, maxMeteorTrail] at hbig ⊢
        omega
      · exact concat_ne_nil _ _
    · exact concat_ne_nil _ _

theorem updateMeteor_trail_length (dt : ℚ) (m : Meteor) (h : m.trail.length ≤ maxMeteorTrail) :
    (updateMeteor dt m).trail.length ≤ maxMeteorTrail := by
  unfold updateMeteor
  apply updateTrail_length
  obtain ⟨-, -, ht, -, -, -, -⟩ := integrateMeteor_fields dt m
  rw [ht]; exact h

theorem updateMeteor_trail_ne_nil (dt : ℚ) (m : Meteor) (h : m.trail ≠ []) :
    (updateMeteor dt m).trail ≠ [] := by
  unfold updateMeteor
  apply updateTrail_ne_nil
  obtain ⟨-, -, ht, -, -, -, -⟩ := integrateMeteor_fields dt m
  rw [ht]; exact h

theorem drawMeteors_fst (dt w h : ℚ) (ms pool : List Meteor) (g : Rng) :
    (drawMeteors dt w h ms pool g).1
      = (ms.map (updateMeteor dt)).filter (fun m => !meteorRemoved w h m) := rfl

theorem drawMeteors_snd (dt w h : ℚ) (ms pool : List Meteor) (g : Rng) :
    (drawMeteors dt w h ms pool g).2.1
      = pool ++ ((ms.map (updateMeteor dt)).filter (fun m => meteorRemoved w h m)).reverse := rfl

theorem drawMeteors_card (dt w h : ℚ) (ms pool : List Meteor) (g : Rng) :
    (drawMeteors dt w h ms pool g).1.length + (drawMeteors dt w h ms pool g).2.1.length
      = ms.length + pool.length := by
  rw [drawMeteors_fst, drawMeteors_snd]
  simp only [List.length_append, List.length_reverse]
  have hp := length_filter_partition (fun m => meteorRemoved w h m) (ms.map (updateMeteor dt))
  simp only [List.length_map] at hp
  omega

theorem meteorRemoved_false (w h : ℚ) (m : Meteor) (hr : meteorRemoved w h m = false) :
    m.age ≤ m.life ∧ -200 ≤ m.x ∧ m.x ≤ w + 200 ∧ m.y ≤ h + 200 := by
  simp only [meteorRemoved, Bool.or_eq_false_iff, decide_eq_false_iff_not, not_lt] at hr
  exact ⟨hr.1.1.1, hr.1.1.2, hr.1.2, hr.2⟩

/-! ### createMeteor lemmas -/

theorem createMeteor_full (T : Trig) (w h : ℚ) (ms pool : List Meteor) (g : Rng)
    (hfull : maxMeteors ≤ ms.length) :
    createMeteor T w h ms pool g = (ms, pool, g) := by
  unfold createMeteor
  rw [if_pos hfull]

theorem createMeteor_struct (T : Trig) (w h : ℚ) (ms pool : List Meteor) (g : Rng)
    (hlt : ms.length < maxMeteors) :
    ∃ m, (createMeteor T w h ms pool g).1 = ms.concat m ∧
      (createMeteor T w h ms pool g).2.1 = pool.dropLast ∧
      m.trail = [⟨m.x, m.y⟩] ∧ m.age = 0 ∧ (createMeteor T w h ms pool g).2.2.seq = g.seq := by
  unfold createMeteor
  rw [if_neg (by omega)]
  cases hp : pool.getLast? with
  | none =>
    have hpe : pool = [] := by
      cases pool with
      | nil => rfl
      | cons a l => simp [List.getLast?_concat, List.getLast?] at hp
    subst hpe
    simp only [Rng.next]
    split
    · refine ⟨_, rfl, rfl, ?_, ?_, ?_⟩ <;> rfl
    · split
      · refine ⟨_, rfl, rfl, ?_, ?_, ?_⟩ <;> rfl
      · refine ⟨_, rfl, rfl, ?_, ?_, ?_⟩ <;> rfl
  | some m0 =>
    simp only [Rng.next]
    split
    · refine ⟨_, rfl, trivial, ?_, ?_, ?_⟩ <;> rfl
    · split
      · refine ⟨_, rfl, trivial, ?_, ?_, ?_⟩ <;> rfl
      · refine ⟨_, rfl, trivial, ?_, ?_, ?_⟩ <;> rfl

theorem createMeteor_card (T : Trig) (w h : ℚ) (ms pool : List Meteor) (g : Rng)
    (hsum : ms.length + pool.length ≤ maxMeteors) :
    (createMeteor T w h ms pool g).1.length ≤ maxMeteors ∧
    (createMeteor T w h ms pool g).1.length + (createMeteor T w h ms pool g).2.1.length
      ≤ maxMeteors := by
  by_cases hlt : ms.length < maxMeteors
  · obtain ⟨m, h1, h2, -, -, -⟩ := createMeteor_struct T w h ms pool g hlt
    rw [h1, h2]
    simp only [List.length_concat, List.length_dropLast]
    omega
  · rw [createMeteor_full T w h ms pool g (by omega)]
    exact ⟨Nat.le_trans (Nat.le_add_right ms.length pool.length) hsum, hsum⟩

/-! ### Lightning lemmas -/

theorem mkBoltPoints_length (a b c : ℚ) (n : ℕ) (g : Rng) :
    (mkBoltPoints a b c n g).1.length = n := by
  induction n generalizing a b g with
  | zero => rfl
  | succ n ih => simp [mkBoltPoints, Rng.next, ih]

theorem spawnLightning_length (w h : ℚ) (ls : List Lightning) (g : Rng)
    (h6 : ls.length ≤ 6) :
    (spawnLightning w h ls g).1.length ≤ 6 := by
  unfold spawnLightning
  simp only [Rng.next]
  exact length_pushShift ls _ 6 h6

theorem spawnLightning_mem (w h : ℚ) (ls : List Lightning) (g : Rng)
    (hg : ValidSeq g.seq) :
    ∀ L ∈ (spawnLightning w h ls g).1, L ∈ ls ∨
      ∃ segs : ℕ, 4 ≤ segs ∧ segs ≤ 8 ∧ L.points.length = segs + 1 ∧ L.age = 0 := by
  intro L hL
  unfold spawnLightning at hL
  simp only [Rng.next] at hL
  have hmem : ∀ (bolt : Lightning) (l' : List Lightning),
      L ∈ (if 6 < (l'.concat bolt).length then (l'.concat bolt).tail else l'.concat bolt) →
      L ∈ l' ∨ L = bolt := by
    intro bolt l' hh
    have : L ∈ l'.concat bolt := by
      split at hh
      · exact List.mem_of_mem_tail hh
      · exact hh
    simpa [List.concat_eq_append] using this
  rcases hmem _ _ hL with hin | rfl
  · exact Or.inl hin
  · right
    set u := g.seq (g.idx + 1 + 1 + 1) with hu
    obtain ⟨hu0, hu1⟩ := hg (g.idx + 1 + 1 + 1)
    refine ⟨(randInt u 4 8).toNat, ?_, ?_, ?_, rfl⟩
    · have : (4 : ℤ) ≤ randInt u 4 8 := by
        unfold randInt rand
        rw [Int.le_floor]
        push_cast
        nlinarith
      omega
    · have : randInt u 4 8 < 9 := by
        unfold randInt rand
        rw [Int.floor_lt]
        push_cast
        nlinarith
      omega
    · simp [mkBoltPoints_length]

theorem drawLightning_length_le (dt : ℚ) (ls : List Lightning) :
    (drawLightning dt ls).length ≤ ls.length :=
  List.length_filterMap_le _ _

theorem stepLightning_some (dt : ℚ) (L L' : Lightning) (h : stepLightning dt L = some L') :
    L'.age = L.age + dt ∧ L'.life = L.life ∧ L'.points = L.points ∧ L'.age ≤ L'.life := by
  simp only [stepLightning] at h
  split at h
  · exact absurd h (by simp)
  · next hc =>
    simp only [Option.some.injEq] at h
    subst h
    simp at hc ⊢
    linarith

theorem drawLightning_mem (dt : ℚ) (ls : List Lightning) (L' : Lightning)
    (h : L' ∈ drawLightning dt ls) :
    ∃ L ∈ ls, stepLightning dt L = some L' := by
  simpa [drawLightning, List.mem_filterMap] using h

/-! ### Burst lemmas -/

theorem mkBurst_length (T : Trig) (cx cy : ℚ) (n : ℕ) (g : Rng) :
    (mkBurst T cx cy n g).1.length = n := by
  induction n generalizing g with
  | zero => rfl
  | succ n ih => simp [mkBurst, mkBurstParticle, Rng.next, ih]

theorem mkBurst_seq (T : Trig) (cx cy : ℚ) (n : ℕ) (g : Rng) :
    (mkBurst T cx cy n g).2.seq = g.seq := by
  induction n generalizing g with
  | zero => rfl
  | succ n ih => simp [mkBurst, mkBurstParticle, Rng.next, ih]

theorem mkBurst_mem (T : Trig) (cx cy : ℚ) (n : ℕ) (g : Rng) (hg : ValidSeq g.seq) :
    ∀ p ∈ (mkBurst T cx cy n g).1,
      p.x = cx ∧ p.y = cy ∧ p.age = 0 ∧ 700 ≤ p.life ∧ p.life < 1400 ∧
      (∃ u spd, 0 ≤ u ∧ u < 1 ∧ 80 ≤ spd ∧ spd < 480 ∧
        p.vx = T.cos (u * T.pi * 2) * spd * timeScale ∧
        p.vy = T.sin (u * T.pi * 2) * spd * timeScale) ∧
      20 ≤ p.hue ∧ p.hue ≤ 60 := by
  induction n generalizing g with
  | zero => intro p hp; simp [mkBurst] at hp
  | succ n ih =>
    intro p hp
    simp only [mkBurst, mkBurstParticle, Rng.next, List.mem_cons] at hp
    rcases hp with rfl | hp
    · obtain ⟨ha0, ha1⟩ := hg g.idx
      obtain ⟨hs0, hs1⟩ := hg (g.idx + 1)
      obtain ⟨hl0, hl1⟩ := hg (g.idx + 1 + 1)
      obtain ⟨hh0, hh1⟩ := hg (g.idx + 1 + 1 + 1 + 1)
      refine ⟨rfl, rfl, rfl, ?_, ?_, ?_, ?_, ?_⟩
      · show 700 ≤ rand _ 700 1400
        unfold rand; nlinarith
      · show rand _ 700 1400 < 1400
        unfold rand; nlinarith
      · refine ⟨g.seq g.idx, rand (g.seq (g.idx + 1)) 80 480, ha0, ha1, ?_, ?_, rfl, rfl⟩
        · unfold rand; nlinarith
        · unfold rand; nlinarith
      · show (20 : ℤ) ≤ randInt _ 20 60
        unfold randInt rand
        rw [Int.le_floor]
        push_cast
        nlinarith
      · show randInt _ 20 60 ≤ (60 : ℤ)
        have : randInt (g.seq (g.idx + 1 + 1 + 1 + 1)) 20 60 < 61 := by
          unfold randInt rand
          rw [Int.floor_lt]
          push_cast
          nlinarith
        omega
    · exact ih ⟨g.seq, g.idx + 1 + 1 + 1 + 1 + 1 + 1⟩ hg p hp

/-! ### Random-stream preservation -/

theorem createMeteor_seq (T : Trig) (w h : ℚ) (ms pool : List Meteor) (g : Rng) :
    (createMeteor T w h ms pool g).2.2.seq = g.seq := by
  by_cases hlt : ms.length < maxMeteors
  · obtain ⟨m, -, -, -, -, hseq⟩ := createMeteor_struct T w h ms pool g hlt
    exact hseq
  · rw [createMeteor_full T w h ms pool g (by omega)]

theorem mkBoltPoints_seq (a b c : ℚ) (n : ℕ) (g : Rng) :
    (mkBoltPoints a b c n g).2.seq = g.seq := by
  induction n generalizing a b g with
  | zero => rfl
  | succ n ih => simp [mkBoltPoints, Rng.next, ih]

theorem spawnLightning_seq (w h : ℚ) (ls : List Lightning) (g : Rng) :
    (spawnLightning w h ls g).2.seq = g.seq := by
  unfold spawnLightning
  simp only [Rng.next]
  simp [mkBoltPoints_seq]

theorem mkTrickle_seq (cx cy : ℚ) (g : Rng) : (mkTrickle cx cy g).2.seq = g.seq := rfl

theorem initStars_seq (T : Trig) (w h : ℚ) (n : ℕ) (g : Rng) :
    (initStars T w h n g).2.seq = g.seq := by
  induction n generalizing g with
  | zero => rfl
  | succ n ih => simp [initStars, mkStar, Rng.next, ih]

/-! ### drawMeteors membership lemmas -/

theorem drawMeteors_live_mem (dt w h : ℚ) (ms pool : List Meteor) (g : Rng) (m' : Meteor)
    (hm : m' ∈ (drawMeteors dt w h ms pool g).1) :
    (∃ m ∈ ms, m' = updateMeteor dt m) ∧ meteorRemoved w h m' = false := by
  rw [drawMeteors_fst] at hm
  obtain ⟨hmap, hflt⟩ := List.mem_filter.mp hm
  obtain ⟨m, hmem, rfl⟩ := List.mem_map.mp hmap
  exact ⟨⟨m, hmem, rfl⟩, by simpa using hflt⟩

theorem drawMeteors_pool_mem (dt w h : ℚ) (ms pool : List Meteor) (g : Rng) (m' : Meteor)
    (hm : m' ∈ (drawMeteors dt w h ms pool g).2.1) :
    m' ∈ pool ∨ ∃ m ∈ ms, m' = updateMeteor dt m := by
  rw [drawMeteors_snd] at hm
  rcases List.mem_append.mp hm with h1 | h2
  · exact Or.inl h1
  · right
    have h3 := List.mem_reverse.mp h2
    obtain ⟨hmap, -⟩ := List.mem_filter.mp h3
    obtain ⟨m, hmem, rfl⟩ := List.mem_map.mp hmap
    exact ⟨m, hmem, rfl⟩

theorem createMeteor_live_mem (T : Trig) (w h : ℚ) (ms pool : List Meteor) (g : Rng)
    (m' : Meteor) (hm : m' ∈ (createMeteor T w h ms pool g).1) :
    m' ∈ ms ∨ (m'.trail = [⟨m'.x, m'.y⟩] ∧ m'.age = 0) := by
  by_cases hlt : ms.length < maxMeteors
  · obtain ⟨m, h1, -, h3, h4, -⟩ := createMeteor_struct T w h ms pool g hlt
    rw [h1] at hm
    rcases (by simpa [List.concat_eq_append] using hm : m' ∈ ms ∨ m' = m) with hin | rfl
    · exact Or.inl hin
    · exact Or.inr ⟨h3, h4⟩
  · rw [createMeteor_full T w h ms pool g (by omega)] at hm
    exact Or.inl hm

theorem createMeteor_pool_mem (T : Trig) (w h : ℚ) (ms pool : List Meteor) (g : Rng)
    (m' : Meteor) (hm : m' ∈ (createMeteor T w h ms pool g).2.1) : m' ∈ pool := by
  by_cases hlt : ms.length < maxMeteors
  · obtain ⟨m, -, h2, -, -, -⟩ := createMeteor_struct T w h ms pool g hlt
    rw [h2] at hm
    exact (List.dropLast_sublist pool).subset hm
  · rw [createMeteor_full T w h ms pool g (by omega)] at hm
    exact hm

/-! ### Frame phase equations -/

theorem frameClock_eq (now : ℚ) (s : Scene) :
    frameClock now s = ({ s with lastTime := now }, min (now - s.lastTime) 48) := rfl

theorem framePaint_eq (cdt : ℚ) (s : Scene) :
    framePaint cdt s = { s with
      particles := drawParticles cdt s.particles
      meteors := (drawMeteors cdt s.width s.height s.meteors s.meteorPool s.rng).1
      meteorPool := (drawMeteors cdt s.width s.height s.meteors s.meteorPool s.rng).2.1
      lightnings := drawLightning cdt s.lightnings
      rng := (drawMeteors cdt s.width s.height s.meteors s.meteorPool s.rng).2.2 } := rfl

theorem frameMeteorSpawn_eq (T : Trig) (now : ℚ) (s : Scene) :
    frameMeteorSpawn T now s =
      if rand (s.rng.seq s.rng.idx) 200 meteorSpawnInterval < now - s.lastMeteorSpawn then
        { s with
          meteors := (createMeteor T s.width s.height s.meteors s.meteorPool ⟨s.rng.seq, s.rng.idx + 1⟩).1
          meteorPool := (createMeteor T s.width s.height s.meteors s.meteorPool ⟨s.rng.seq, s.rng.idx + 1⟩).2.1
          lastMeteorSpawn := now
          rng := (createMeteor T s.width s.height s.meteors s.meteorPool ⟨s.rng.seq, s.rng.idx + 1⟩).2.2 }
      else { s with rng := ⟨s.rng.seq, s.rng.idx + 1⟩ } := rfl

theorem frameLightningSpawn_eq (cdt : ℚ) (s : Scene) :
    frameLightningSpawn cdt s =
      if s.rng.seq s.rng.idx < lightningChancePerSecond * (cdt / 1000) then
        { s with
          lightnings := (spawnLightning s.width s.height s.lightnings ⟨s.rng.seq, s.rng.idx + 1⟩).1
          rng := (spawnLightning s.width s.height s.lightnings ⟨s.rng.seq, s.rng.idx + 1⟩).2 }
      else { s with rng := ⟨s.rng.seq, s.rng.idx + 1⟩ } := rfl

theorem frameTrickle_eq (now : ℚ) (s : Scene) :
    frameTrickle now s = match s.bigBangTime with
      | none => s
      | some bb =>
        if now - bb < 1200 then
          if s.rng.seq s.rng.idx < 0.2 then
            { s with
              particles :=
                if maxParticles < (s.particles.concat (mkTrickle s.cx s.cy ⟨s.rng.seq, s.rng.idx + 1⟩).1).length
                then (s.particles.concat (mkTrickle s.cx s.cy ⟨s.rng.seq, s.rng.idx + 1⟩).1).tail
                else s.particles.concat (mkTrickle s.cx s.cy ⟨s.rng.seq, s.rng.idx + 1⟩).1
              rng := (mkTrickle s.cx s.cy ⟨s.rng.seq, s.rng.idx + 1⟩).2 }
          else { s with rng := ⟨s.rng.seq, s.rng.idx + 1⟩ }
        else s := rfl

/-! ### Random-stream preservation through phases and events -/

theorem frameMeteorSpawn_seq (T : Trig) (now : ℚ) (s : Scene) :
    (frameMeteorSpawn T now s).rng.seq = s.rng.seq := by
  rw [frameMeteorSpawn_eq]
  split
  · exact createMeteor_seq T s.width s.height s.meteors s.meteorPool ⟨s.rng.seq, s.rng.idx + 1⟩
  · rfl

theorem frameLightningSpawn_seq (cdt : ℚ) (s : Scene) :
    (frameLightningSpawn cdt s).rng.seq = s.rng.seq := by
  rw [frameLightningSpawn_eq]
  split
  · exact spawnLightning_seq s.width s.height s.lightnings ⟨s.rng.seq, s.rng.idx + 1⟩
  · rfl

theorem framePaint_seq (cdt : ℚ) (s : Scene) :
    (framePaint cdt s).rng.seq = s.rng.seq := rfl

theorem frameTrickle_seq (now : ℚ) (s : Scene) :
    (frameTrickle now s).rng.seq = s.rng.seq := by
  rw [frameTrickle_eq]
  split
  · rfl
  · split
    · split <;> rfl
    · rfl

theorem loopFrame_seq (T : Trig) (now : ℚ) (s : Scene) :
    (loopFrame T now s).rng.seq = s.rng.seq := by
  unfold loopFrame
  rw [frameTrickle_seq, framePaint_seq, frameLightningSpawn_seq, frameMeteorSpawn_seq]
  rfl

theorem stepEvent_seq (T : Trig) (s : Scene) (e : SpaceEvent) :
    (stepEvent T s e).rng.seq = s.rng.seq := by
  cases e with
  | frame now => exact loopFrame_seq T now s
  | burst now => exact mkBurst_seq T s.cx s.cy (min maxParticles 140) s.rng
  | setSurface a b c => rfl

theorem runEvents_seq (T : Trig) (s : Scene) (es : List SpaceEvent) :
    (runEvents T s es).rng.seq = s.rng.seq := by
  induction es generalizing s with
  | nil => rfl
  | cons e es ih => exact (ih (stepEvent T s e)).trans (stepEvent_seq T s e)

/-! ### PoolBounds preservation -/

theorem poolBounds_frameMeteorSpawn (T : Trig) (now : ℚ) (s : Scene) (h : PoolBounds s) :
    PoolBounds (frameMeteorSpawn T now s) := by
  rw [frameMeteorSpawn_eq]
  obtain ⟨h1, h2, h3, h4, h5⟩ := h
  split
  · obtain ⟨hc1, hc2⟩ :=
      createMeteor_card T s.width s.height s.meteors s.meteorPool ⟨s.rng.seq, s.rng.idx + 1⟩ h2
    exact ⟨hc1, hc2, h3, h4, h5⟩
  · exact ⟨h1, h2, h3, h4, h5⟩

theorem poolBounds_frameLightningSpawn (cdt : ℚ) (s : Scene) (h : PoolBounds s) :
    PoolBounds (frameLightningSpawn cdt s) := by
  rw [frameLightningSpawn_eq]
  obtain ⟨h1, h2, h3, h4, h5⟩ := h
  split
  · exact ⟨h1, h2, h3, spawnLightning_length _ _ _ _ h4, h5⟩
  · exact ⟨h1, h2, h3, h4, h5⟩

theorem poolBounds_framePaint (cdt : ℚ) (s : Scene) (h : PoolBounds s) :
    PoolBounds (framePaint cdt s) := by
  rw [framePaint_eq]
  obtain ⟨h1, h2, h3, h4, h5⟩ := h
  have hc := drawMeteors_card cdt s.width s.height s.meteors s.meteorPool s.rng
  refine ⟨?_, ?_, ?_, ?_, h5⟩
  · show (drawMeteors cdt s.width s.height s.meteors s.meteorPool s.rng).1.length ≤ maxMeteors
    omega
  · show (drawMeteors cdt s.width s.height s.meteors s.meteorPool s.rng).1.length
        + (drawMeteors cdt s.width s.height s.meteors s.meteorPool s.rng).2.1.length ≤ maxMeteors
    omega
  · exact le_trans (drawParticles_length_le _ _) h3
  · exact le_trans (drawLightning_length_le _ _) h4

theorem poolBounds_frameTrickle (now : ℚ) (s : Scene) (h : PoolBounds s) :
    PoolBounds (frameTrickle now s) := by
  rw [frameTrickle_eq]
  obtain ⟨h1, h2, h3, h4, h5⟩ := h
  split
  · exact ⟨h1, h2, h3, h4, h5⟩
  · split
    · split
      · exact ⟨h1, h2, length_pushShift _ _ _ h3, h4, h5⟩
      · exact ⟨h1, h2, h3, h4, h5⟩
    · exact ⟨h1, h2, h3, h4, h5⟩

theorem poolBounds_loopFrame (T : Trig) (now : ℚ) (s : Scene) (h : PoolBounds s) :
    PoolBounds (loopFrame T now s) := by
  unfold loopFrame
  apply poolBounds_frameTrickle
  apply poolBounds_framePaint
  apply poolBounds_frameLightningSpawn
  apply poolBounds_frameMeteorSpawn
  exact h

theorem poolBounds_burst (T : Trig) (now : ℚ) (s : Scene) (h : PoolBounds s) :
    PoolBounds (triggerBigBang T now s) := by
  unfold triggerBigBang
  obtain ⟨h1, h2, h3, h4, h5⟩ := h
  refine ⟨h1, h2, ?_, h4, h5⟩
  show (mkBurst T s.cx s.cy (min maxParticles 140) s.rng).1.length ≤ maxParticles
  rw [mkBurst_length]
  exact min_le_left _ _

theorem poolBounds_resize (a b c : ℚ) (s : Scene) (h : PoolBounds s) :
    PoolBounds (resize a b c s) := h

theorem poolBounds_step (T : Trig) (s : Scene) (e : SpaceEvent) (h : PoolBounds s) :
    PoolBounds (stepEvent T s e) := by
  cases e with
  | frame now => exact poolBounds_loopFrame T now s h
  | burst now => exact poolBounds_burst T now s h
  | setSurface a b c => exact poolBounds_resize a b c s h

theorem poolBounds_run (T : Trig) (s : Scene) (es : List SpaceEvent) (h : PoolBounds s) :
    PoolBounds (runEvents T s es) := by
  induction es generalizing s with
  | nil => exact h
  | cons e es ih => exact ih (stepEvent T s e) (poolBounds_step T s e h)

/-! ### TrailBound preservation -/

theorem trailBound_frameMeteorSpawn (T : Trig) (now : ℚ) (s : Scene) (h : TrailBound s) :
    TrailBound (frameMeteorSpawn T now s) := by
  rw [frameMeteorSpawn_eq]
  obtain ⟨hl, hp⟩ := h
  split
  · constructor
    · intro m hm
      rcases createMeteor_live_mem T s.width s.height s.meteors s.meteorPool ⟨s.rng.seq, s.rng.idx + 1⟩ m hm with hin | ⟨ht, -⟩
      · exact hl m hin
      · rw [ht]; simp [maxMeteorTrail]
    · intro m hm
      exact hp m (createMeteor_pool_mem T s.width s.height s.meteors s.meteorPool ⟨s.rng.seq, s.rng.idx + 1⟩ m hm)
  · exact ⟨hl, hp⟩

theorem trailBound_framePaint (cdt : ℚ) (s : Scene) (h : TrailBound s) :
    TrailBound (framePaint cdt s) := by
  rw [framePaint_eq]
  obtain ⟨hl, hp⟩ := h
  constructor
  · intro m hm
    obtain ⟨⟨m0, hm0, rfl⟩, -⟩ := drawMeteors_live_mem cdt s.width s.height s.meteors s.meteorPool s.rng m hm
    exact updateMeteor_trail_length _ _ (hl m0 hm0)
  · intro m hm
    rcases drawMeteors_pool_mem cdt s.width s.height s.meteors s.meteorPool s.rng m hm with hin | ⟨m0, hm0, rfl⟩
    · exact hp m hin
    · exact updateMeteor_trail_length _ _ (hl m0 hm0)

theorem trailBound_frameLightningSpawn (cdt : ℚ) (s : Scene) (h : TrailBound s) :
    TrailBound (frameLightningSpawn cdt s) := by
  rw [frameLightningSpawn_eq]
  split <;> exact h

theorem trailBound_frameTrickle (now : ℚ) (s : Scene) (h : TrailBound s) :
    TrailBound (frameTrickle now s) := by
  rw [frameTrickle_eq]
  split
  · exact h
  · split
    · split <;> exact h
    · exact h

theorem trailBound_loopFrame (T : Trig) (now : ℚ) (s : Scene) (h : TrailBound s) :
    TrailBound (loopFrame T now s) := by
  unfold loopFrame
  apply trailBound_frameTrickle
  apply trailBound_framePaint
  apply trailBound_frameLightningSpawn
  apply trailBound_frameMeteorSpawn
  exact h

theorem trailBound_step (T : Trig) (s : Scene) (e : SpaceEvent) (h : TrailBound s) :
    TrailBound (stepEvent T s e) := by
  cases e with
  | frame now => exact trailBound_loopFrame T now s h
  | burst now => exact h
  | setSurface a b c => exact h

theorem trailBound_run (T : Trig) (s : Scene) (es : List SpaceEvent) (h : TrailBound s) :
    TrailBound (runEvents T s es) := by
  induction es generalizing s with
  | nil => exact h
  | cons e es ih => exact ih (stepEvent T s e) (trailBound_step T s e h)

/-! ### TrailNonempty preservation -/

theorem trailNonempty_frameMeteorSpawn (T : Trig) (now : ℚ) (s : Scene) (h : TrailNonempty s) :
    TrailNonempty (frameMeteorSpawn T now s) := by
  rw [frameMeteorSpawn_eq]
  obtain ⟨hl, hp⟩ := h
  split
  · constructor
    · intro m hm
      rcases createMeteor_live_mem T s.width s.height s.meteors s.meteorPool ⟨s.rng.seq, s.rng.idx + 1⟩ m hm with hin | ⟨ht, -⟩
      · exact hl m hin
      · rw [ht]; simp
    · intro m hm
      exact hp m (createMeteor_pool_mem T s.width s.height s.meteors s.meteorPool ⟨s.rng.seq, s.rng.idx + 1⟩ m hm)
  · exact ⟨hl, hp⟩

theorem trailNonempty_framePaint (cdt : ℚ) (s : Scene) (h : TrailNonempty s) :
    TrailNonempty (framePaint cdt s) := by
  rw [framePaint_eq]
  obtain ⟨hl, hp⟩ := h
  constructor
  · intro m hm
    obtain ⟨⟨m0, hm0, rfl⟩, -⟩ := drawMeteors_live_mem cdt s.width s.height s.meteors s.meteorPool s.rng m hm
    exact updateMeteor_trail_ne_nil _ _ (hl m0 hm0)
  · intro m hm
    rcases drawMeteors_pool_mem cdt s.width s.height s.meteors s.meteorPool s.rng m hm with hin | ⟨m0, hm0, rfl⟩
    · exact hp m hin
    · exact updateMeteor_trail_ne_nil _ _ (hl m0 hm0)

theorem trailNonempty_frameLightningSpawn (cdt : ℚ) (s : Scene) (h : TrailNonempty s) :
    TrailNonempty (frameLightningSpawn cdt s) := by
  rw [frameLightningSpawn_eq]
  split <;> exact h

theorem trailNonempty_frameTrickle (now : ℚ) (s : Scene) (h : TrailNonempty s) :
    TrailNonempty (frameTrickle now s) := by
  rw [frameTrickle_eq]
  split
  · exact h
  · split
    · split <;> exact h
    · exact h

theorem trailNonempty_loopFrame (T : Trig) (now : ℚ) (s : Scene) (h : TrailNonempty s) :
    TrailNonempty (loopFrame T now s) := by
  unfold loopFrame
  apply trailNonempty_frameTrickle
  apply trailNonempty_framePaint
  apply trailNonempty_frameLightningSpawn
  apply trailNonempty_frameMeteorSpawn
  exact h

theorem trailNonempty_step (T : Trig) (s : Scene) (e : SpaceEvent) (h : TrailNonempty s) :
    TrailNonempty (stepEvent T s e) := by
  cases e with
  | frame now => exact trailNonempty_loopFrame T now s h
  | burst now => exact h
  | setSurface a b c => exact h

theorem trailNonempty_run (T : Trig) (s : Scene) (es : List SpaceEvent) (h : TrailNonempty s) :
    TrailNonempty (runEvents T s es) := by
  induction es generalizing s with
  | nil => exact h
  | cons e es ih => exact ih (stepEvent T s e) (trailNonempty_step T s e h)

/-! ### BoltNonempty preservation -/

theorem boltNonempty_frameLightningSpawn (cdt : ℚ) (s : Scene) (hg : ValidSeq s.rng.seq)
    (h : BoltNonempty s) : BoltNonempty (frameLightningSpawn cdt s) := by
  rw [frameLightningSpawn_eq]
  split
  · intro L hL
    rcases spawnLightning_mem s.width s.height s.lightnings ⟨s.rng.seq, s.rng.idx + 1⟩ hg L hL
      with hin | ⟨segs, h4, -, hlen, -⟩
    · exact h L hin
    · rw [hlen]; omega
  · exact h

theorem boltNonempty_framePaint (cdt : ℚ) (s : Scene) (h : BoltNonempty s) :
    BoltNonempty (framePaint cdt s) := by
  rw [framePaint_eq]
  intro L' hL
  obtain ⟨L, hmem, hstep⟩ := drawLightning_mem cdt s.lightnings L' hL
  obtain ⟨-, -, hpts, -⟩ := stepLightning_some _ _ _ hstep
  rw [hpts]
  exact h L hmem

theorem boltNonempty_frameMeteorSpawn (T : Trig) (now : ℚ) (s : Scene) (h : BoltNonempty s) :
    BoltNonempty (frameMeteorSpawn T now s) := by
  rw [frameMeteorSpawn_eq]
  split <;> exact h

theorem boltNonempty_frameTrickle (now : ℚ) (s : Scene) (h : BoltNonempty s) :
    BoltNonempty (frameTrickle now s) := by
  rw [frameTrickle_eq]
  split
  · exact h
  · split
    · split <;> exact h
    · exact h

theorem boltNonempty_loopFrame (T : Trig) (now : ℚ) (s : Scene) (hg : ValidSeq s.rng.seq)
    (h : BoltNonempty s) : BoltNonempty (loopFrame T now s) := by
  unfold loopFrame
  apply boltNonempty_frameTrickle
  apply boltNonempty_framePaint
  apply boltNonempty_frameLightningSpawn
  · rw [frameMeteorSpawn_seq]
    exact hg
  · apply boltNonempty_frameMeteorSpawn
    exact h

theorem boltNonempty_step (T : Trig) (s : Scene) (e : SpaceEvent) (hg : ValidSeq s.rng.seq)
    (h : BoltNonempty s) : BoltNonempty (stepEvent T s e) := by
  cases e with
  | frame now => exact boltNonempty_loopFrame T now s hg h
  | burst now => exact h
  | setSurface a b c => exact h

theorem boltNonempty_run (T : Trig) (s : Scene) (es : List SpaceEvent) (hg : ValidSeq s.rng.seq)
    (h : BoltNonempty s) : BoltNonempty (runEvents T s es) := by
  induction es generalizing s with
  | nil => exact h
  | cons e es ih =>
    refine ih (stepEvent T s e) ?_ (boltNonempty_step T s e hg h)
    rw [stepEvent_seq]
    exact hg

/-! ### Star-array lemmas -/

theorem initStars_length (T : Trig) (w h : ℚ) (n : ℕ) (g : Rng) :
    (initStars T w h n g).1.length = n := by
  induction n generalizing g with
  | zero => rfl
  | succ n ih => simp [initStars, mkStar, Rng.next, ih]

theorem initStars_mem (T : Trig) (w h : ℚ) (hw : 0 ≤ w) (hh : 0 ≤ h) (n : ℕ) (g : Rng)
    (hg : ValidSeq g.seq) :
    ∀ q ∈ (initStars T w h n g).1, 0 ≤ q.x ∧ q.x ≤ w ∧ 0 ≤ q.y ∧ q.y ≤ h := by
  induction n generalizing g with
  | zero => intro q hq; simp [initStars] at hq
  | succ n ih =>
    intro q hq
    simp only [initStars, mkStar, Rng.next, List.mem_cons] at hq
    rcases hq with rfl | hq
    · obtain ⟨hx0, hx1⟩ := hg g.idx
      obtain ⟨hy0, hy1⟩ := hg (g.idx + 1)
      refine ⟨?_, ?_, ?_, ?_⟩
      · show 0 ≤ g.seq g.idx * w
        exact mul_nonneg hx0 hw
      · show g.seq g.idx * w ≤ w
        nlinarith
      · show 0 ≤ g.seq (g.idx + 1) * h
        exact mul_nonneg hy0 hh
      · show g.seq (g.idx + 1) * h ≤ h
        nlinarith
    · exact ih ⟨g.seq, g.idx + 1 + 1 + 1 + 1 + 1 + 1⟩ hg q hq

theorem frameMeteorSpawn_stars (T : Trig) (now : ℚ) (s : Scene) :
    (frameMeteorSpawn T now s).stars = s.stars := by
  rw [frameMeteorSpawn_eq]
  split <;> rfl

theorem frameLightningSpawn_stars (cdt : ℚ) (s : Scene) :
    (frameLightningSpawn cdt s).stars = s.stars := by
  rw [frameLightningSpawn_eq]
  split <;> rfl

theorem frameTrickle_stars (now : ℚ) (s : Scene) :
    (frameTrickle now s).stars = s.stars := by
  rw [frameTrickle_eq]
  split
  · rfl
  · split
    · split <;> rfl
    · rfl

theorem loopFrame_stars (T : Trig) (now : ℚ) (s : Scene) :
    (loopFrame T now s).stars = s.stars := by
  unfold loopFrame
  show (frameTrickle _ (framePaint _ (frameLightningSpawn _ (frameMeteorSpawn T now _)))).stars
      = s.stars
  rw [frameTrickle_stars]
  show (frameLightningSpawn _ (frameMeteorSpawn T now _)).stars = s.stars
  rw [frameLightningSpawn_stars, frameMeteorSpawn_stars]

/-! ### initScene bounds -/

theorem initScene_meteors (T : Trig) (a b c now : ℚ) (g : Rng) :
    (initScene T a b c now g).meteors
      = (createMeteor T (initSurface a b c g).width (initSurface a b c g).height
          (createMeteor T (initSurface a b c g).width (initSurface a b c g).height [] []
            (initStars T (initSurface a b c g).width (initSurface a b c g).height maxStars g).2).1
          (createMeteor T (initSurface a b c g).width (initSurface a b c g).height [] []
            (initStars T (initSurface a b c g).width (initSurface a b c g).height maxStars g).2).2.1
          (createMeteor T (initSurface a b c g).width (initSurface a b c g).height [] []
            (initStars T (initSurface a b c g).width (initSurface a b c g).height maxStars g).2).2.2).1 := by
  simp only [initScene]

theorem initScene_meteorPool (T : Trig) (a b c now : ℚ) (g : Rng) :
    (initScene T a b c now g).meteorPool
      = (createMeteor T (initSurface a b c g).width (initSurface a b c g).height
          (createMeteor T (initSurface a b c g).width (initSurface a b c g).height [] []
            (initStars T (initSurface a b c g).width (initSurface a b c g).height maxStars g).2).1
          (createMeteor T (initSurface a b c g).width (initSurface a b c g).height [] []
            (initStars T (initSurface a b c g).width (initSurface a b c g).height maxStars g).2).2.1
          (createMeteor T (initSurface a b c g).width (initSurface a b c g).height [] []
            (initStars T (initSurface a b c g).width (initSurface a b c g).height maxStars g).2).2.2).2.1 := by
  simp only [initScene]

theorem initScene_stars (T : Trig) (a b c now : ℚ) (g : Rng) :
    (initScene T a b c now g).stars
      = (initStars T (initSurface a b c g).width (initSurface a b c g).height maxStars g).1 := by
  simp only [initScene]

theorem initScene_particles (T : Trig) (a b c now : ℚ) (g : Rng) :
    (initScene T a b c now g).particles = [] := by
  simp only [initScene, initSurface, resize]

theorem initScene_lightnings (T : Trig) (a b c now : ℚ) (g : Rng) :
    (initScene T a b c now g).lightnings = [] := by
  simp only [initScene, initSurface, resize]

theorem poolBounds_initScene (T : Trig) (a b c now : ℚ) (g : Rng) :
    PoolBounds (initScene T a b c now g) := by
  have h1 := createMeteor_card T (initSurface a b c g).width (initSurface a b c g).height
    [] [] (initStars T (initSurface a b c g).width (initSurface a b c g).height maxStars g).2
    (by simp [maxMeteors])
  have h2 := createMeteor_card T (initSurface a b c g).width (initSurface a b c g).height
    (createMeteor T (initSurface a b c g).width (initSurface a b c g).height [] []
      (initStars T (initSurface a b c g).width (initSurface a b c g).height maxStars g).2).1
    (createMeteor T (initSurface a b c g).width (initSurface a b c g).height [] []
      (initStars T (initSurface a b c g).width (initSurface a b c g).height maxStars g).2).2.1
    (createMeteor T (initSurface a b c g).width (initSurface a b c g).height [] []
      (initStars T (initSurface a b c g).width (initSurface a b c g).height maxStars g).2).2.2
    h1.2
  refine ⟨?_, ?_, ?_, ?_, ?_⟩
  · rw [initScene_meteors]
    exact h2.1
  · rw [initScene_meteors, initScene_meteorPool]
    exact h2.2
  · rw [initScene_particles]
    exact Nat.zero_le _
  · rw [initScene_lightnings]
    exact Nat.zero_le _
  · rw [initScene_stars]
    exact initStars_length T _ _ maxStars g

/-! ### Trail update characterisation -/

theorem updateTrail_char (M : Meteor) (last : Pt) (hlast : M.trail.getLast? = some last) :
    ((M.x - last.x) ^ 2 + (M.y - last.y) ^ 2 ≤ 16 →
      (updateTrail M).trail = M.trail.dropLast.concat ⟨M.x, M.y⟩) ∧
    (16 < (M.x - last.x) ^ 2 + (M.y - last.y) ^ 2 →
      (M.trail.length < maxMeteorTrail → (updateTrail M).trail = M.trail.concat ⟨M.x, M.y⟩) ∧
      (M.trail.length = maxMeteorTrail →
        (updateTrail M).trail = (M.trail.concat ⟨M.x, M.y⟩).tail)) := by
  unfold updateTrail
  simp only [hlast]
  constructor
  · intro hle
    rw [if_neg (by simpa using not_lt.mpr hle)]
  · intro hgt
    rw [if_pos (by simpa using hgt)]
    constructor
    · intro hlt
      rw [if_neg (by simp only [List.length_concat]; omega)]
    · intro heq
      rw [if_pos (by simp only [List.length_concat]; omega)]

/-! ## The claims -/

/-- C1: for every sequence of frames, bursts and resizes, every entity pool
respects its capacity ceiling at the end of every frame — live meteors at
most `maxMeteors`, live meteors plus the recycle pool at most `maxMeteors`
(so the total number of meteor objects ever allocated is bounded), particles
at most `maxParticles` (trickle particles evict the oldest via shift),
lightning bolts at most 6 (oldest shifted out), and the star array stays at
its fixed size; the bounds also hold right after `init`. -/
theorem C1_pool_capacity (T : Trig) (s : Scene) (es : List SpaceEvent) (h : PoolBounds s) :
    ((runEvents T s es).meteors.length ≤ maxMeteors ∧
     (runEvents T s es).meteors.length + (runEvents T s es).meteorPool.length ≤ maxMeteors ∧
     (runEvents T s es).particles.length ≤ maxParticles ∧
     (runEvents T s es).lightnings.length ≤ 6 ∧
     (runEvents T s es).stars.length = maxStars) ∧
    ∀ T2 : Trig, ∀ a b c now : ℚ, ∀ g : Rng, PoolBounds (initScene T2 a b c now g) :=
  ⟨poolBounds_run T s es h, fun T2 a b c now g => poolBounds_initScene T2 a b c now g⟩

theorem C1_pool_capacity_witness :
    (runEvents T0 sceneFull [SpaceEvent.frame 16, SpaceEvent.burst 20, SpaceEvent.frame 40]).meteors.length
        ≤ maxMeteors ∧
    (runEvents T0 sceneFull [SpaceEvent.frame 16, SpaceEvent.burst 20, SpaceEvent.frame 40]).particles.length
        ≤ maxParticles := by
  have hpb : PoolBounds sceneFull := by
    refine ⟨?_, ?_, ?_, ?_, ?_⟩
    · show ([sampleMeteor] : List Meteor).length ≤ maxMeteors
      simp [maxMeteors]
    · show ([sampleMeteor] : List Meteor).length + ([] : List Meteor).length ≤ maxMeteors
      simp [maxMeteors]
    · show ([sampleParticle] : List Particle).length ≤ maxParticles
      simp [maxParticles]
    · show ([sampleBolt] : List Lightning).length ≤ 6
      simp
    · show (List.replicate maxStars star0).length = maxStars
      exact List.length_replicate _ _
  exact ⟨(C1_pool_capacity T0 sceneFull
      [SpaceEvent.frame 16, SpaceEvent.burst 20, SpaceEvent.frame 40] hpb).1.1,
    (C1_pool_capacity T0 sceneFull
      [SpaceEvent.frame 16, SpaceEvent.burst 20, SpaceEvent.frame 40] hpb).1.2.2.1⟩

/-- C2: over one frame update, every surviving particle, meteor and
lightning bolt has its age advanced by exactly `dt` (hence non-decreasing
for `dt ≥ 0`), and at the end of the frame no particle with `age ≥ life`,
no meteor with `age > life` and no bolt with `age > life` remains in its
pool — so no over-age entity is present at the start of the next frame. -/
theorem C2_age_monotonic_expiry (dt w h : ℚ) (hdt : 0 ≤ dt)
    (ps : List Particle) (ms pool : List Meteor) (ls : List Lightning) (g : Rng) :
    (∀ p' ∈ drawParticles dt ps, ∃ p ∈ ps, p'.age = p.age + dt ∧ p.age ≤ p'.age ∧ p'.life = p.life) ∧
    (∀ p' ∈ drawParticles dt ps, p'.age < p'.life) ∧
    (∀ m' ∈ (drawMeteors dt w h ms pool g).1,
      ∃ m ∈ ms, m'.age = m.age + dt ∧ m.age ≤ m'.age ∧ m'.life = m.life) ∧
    (∀ m' ∈ (drawMeteors dt w h ms pool g).1, m'.age ≤ m'.life) ∧
    (∀ L' ∈ drawLightning dt ls, ∃ L ∈ ls, L'.age = L.age + dt ∧ L.age ≤ L'.age ∧ L'.life = L.life) ∧
    (∀ L' ∈ drawLightning dt ls, L'.age ≤ L'.life) := by
  refine ⟨?_, ?_, ?_, ?_, ?_, ?_⟩
  · intro p' hp'
    obtain ⟨p, hmem, hstep⟩ := drawParticles_mem dt ps p' hp'
    obtain ⟨ha, hl, -, -, -, -, -⟩ := stepParticle_some dt p p' hstep
    exact ⟨p, hmem, ha, by linarith, hl⟩
  · intro p' hp'
    obtain ⟨p, hmem, hstep⟩ := drawParticles_mem dt ps p' hp'
    exact (stepParticle_some dt p p' hstep).2.2.2.1
  · intro m' hm'
    obtain ⟨⟨m, hmem, rfl⟩, -⟩ := drawMeteors_live_mem dt w h ms pool g m' hm'
    obtain ⟨ha, hl⟩ := updateMeteor_age dt m
    exact ⟨m, hmem, ha, by linarith, hl⟩
  · intro m' hm'
    obtain ⟨-, hrem⟩ := drawMeteors_live_mem dt w h ms pool g m' hm'
    exact (meteorRemoved_false w h m' hrem).1
  · intro L' hL'
    obtain ⟨L, hmem, hstep⟩ := drawLightning_mem dt ls L' hL'
    obtain ⟨ha, hl, -, -⟩ := stepLightning_some dt L L' hstep
    exact ⟨L, hmem, ha, by linarith, hl⟩
  · intro L' hL'
    obtain ⟨L, hmem, hstep⟩ := drawLightning_mem dt ls L' hL'
    exact (stepLightning_some dt L L' hstep).2.2.2

theorem C2_age_monotonic_expiry_witness :
    (0 : ℚ) ≤ 16 ∧ (updateMeteor 16 sampleMeteor).age ≤ (updateMeteor 16 sampleMeteor).life := by
  have hrem : meteorRemoved 800 600 (updateMeteor 16 sampleMeteor) = false := by
    obtain ⟨hx, hy, ha, hl, -, -⟩ := updateTrail_fields (integrateMeteor 16 sampleMeteor)
    obtain ⟨ha2, hl2, -, hx2, hy2, -, -⟩ := integrateMeteor_fields 16 sampleMeteor
    unfold updateMeteor meteorRemoved
    rw [hx, hy, ha, hl, ha2, hl2, hx2, hy2]
    norm_num [sampleMeteor, timeScale]
  refine ⟨by norm_num, (C2_age_monotonic_expiry 16 800 600 (by norm_num)
    [sampleParticle] [sampleMeteor] [] [sampleBolt] g0).2.2.2.1 (updateMeteor 16 sampleMeteor) ?_⟩
  rw [drawMeteors_fst]
  simp [hrem]

/-- C10: the frame simulation is a deterministic function of the seeded
random source, the initial scene state and the timestamp sequence: two runs
from equal scenes (same rng seed and cursor, same entities, same surface)
over the same frame-time sequence produce identical scenes, in particular
identical positions and velocities of all particles, meteors, bolts and
stars. -/
theorem C10_deterministic (T : Trig) (s1 s2 : Scene) (nows : List ℚ)
    (hseed : s1.rng = s2.rng) (hstate : s1 = s2) :
    runEvents T s1 (nows.map SpaceEvent.frame) = runEvents T s2 (nows.map SpaceEvent.frame) ∧
    (runEvents T s1 (nows.map SpaceEvent.frame)).particles
      = (runEvents T s2 (nows.map SpaceEvent.frame)).particles ∧
    (runEvents T s1 (nows.map SpaceEvent.frame)).meteors
      = (runEvents T s2 (nows.map SpaceEvent.frame)).meteors ∧
    (runEvents T s1 (nows.map SpaceEvent.frame)).lightnings
      = (runEvents T s2 (nows.map SpaceEvent.frame)).lightnings ∧
    (runEvents T s1 (nows.map SpaceEvent.frame)).stars
      = (runEvents T s2 (nows.map SpaceEvent.frame)).stars := by
  subst hstate
  exact ⟨rfl, rfl, rfl, rfl, rfl⟩

theorem C10_deterministic_witness :
    (runEvents T0 sceneSmall ([16, 32].map SpaceEvent.frame)).particles
      = (runEvents T0 sceneSmall ([16, 32].map SpaceEvent.frame)).particles :=
  (C10_deterministic T0 sceneSmall sceneSmall [16, 32] rfl rfl).2.1

theorem cexMeteor_fields :
    (updateMeteor 16 cexMeteor).x = 100 ∧ (updateMeteor 16 cexMeteor).y = -187473/625 ∧
    (updateMeteor 16 cexMeteor).age = 16 ∧ (updateMeteor 16 cexMeteor).life = 1000 := by
  obtain ⟨hx, hy, ha, hl, -, -⟩ := updateTrail_fields (integrateMeteor 16 cexMeteor)
  obtain ⟨ha2, hl2, -, hx2, hy2, -, -⟩ := integrateMeteor_fields 16 cexMeteor
  refine ⟨?_, ?_, ?_, ?_⟩
  · show (updateTrail (integrateMeteor 16 cexMeteor)).x = 100
    rw [hx, hx2]; norm_num [cexMeteor, timeScale]
  · show (updateTrail (integrateMeteor 16 cexMeteor)).y = -187473/625
    rw [hy, hy2]; norm_num [cexMeteor, timeScale]
  · show (updateTrail (integrateMeteor 16 cexMeteor)).age = 16
    rw [ha, ha2]; norm_num [cexMeteor]
  · show (updateTrail (integrateMeteor 16 cexMeteor)).life = 1000
    rw [hl, hl2]; norm_num [cexMeteor]

theorem cexMeteor_not_removed : meteorRemoved 800 600 (updateMeteor 16 cexMeteor) = false := by
  obtain ⟨hx, hy, ha, hl⟩ := cexMeteor_fields
  unfold meteorRemoved
  rw [hx, hy, ha, hl]
  norm_num

/-- C3 counterexample: after a frame update the meteor `cexMeteor` sits more
than 200 px above the top edge (y < -200) with its age within its life and
its left, right and bottom margins respected, yet `drawMeteors` keeps it in
the live list and recycles nothing — the removal test (space.js line 355)
checks left, right and bottom but not the top, contradicting the claim's
"any side (left, right, top, or bottom)". -/
theorem C3_counterexample :
    (updateMeteor 16 cexMeteor).y < -200 ∧
    (updateMeteor 16 cexMeteor).age ≤ (updateMeteor 16 cexMeteor).life ∧
    -200 ≤ (updateMeteor 16 cexMeteor).x ∧ (updateMeteor 16 cexMeteor).x ≤ 800 + 200 ∧
    (updateMeteor 16 cexMeteor).y ≤ 600 + 200 ∧
    (drawMeteors 16 800 600 [cexMeteor] [] g0).1 = [updateMeteor 16 cexMeteor] ∧
    (drawMeteors 16 800 600 [cexMeteor] [] g0).2.1 = [] := by
  obtain ⟨hx, hy, ha, hl⟩ := cexMeteor_fields
  refine ⟨by rw [hy]; norm_num, by rw [ha, hl]; norm_num, by rw [hx]; norm_num,
    by rw [hx]; norm_num, by rw [hy]; norm_num, ?_, ?_⟩
  · rw [drawMeteors_fst]
    simp [cexMeteor_not_removed]
  · rw [drawMeteors_snd]
    simp [cexMeteor_not_removed]

/-- C3 amended: a meteor is removed during a frame update iff, after
integration, its age exceeds its life OR it is more than 200 px beyond the
left, right, or bottom edge of the surface — there is no top-side test, so
a meteor more than 200 px above the top edge is retained; every removed
meteor is pushed onto the recycle pool rather than discarded; and a
(re)spawned meteor's trail is cleared and re-primed with its spawn point. -/
theorem C3_removal_amended (dt w h : ℚ) (ms pool : List Meteor) (g : Rng) (m : Meteor)
    (hm : m ∈ ms) :
    (meteorRemoved w h (updateMeteor dt m) = true ↔
      ((updateMeteor dt m).life < (updateMeteor dt m).age ∨
       (updateMeteor dt m).x < -200 ∨ w + 200 < (updateMeteor dt m).x ∨
       h + 200 < (updateMeteor dt m).y)) ∧
    (meteorRemoved w h (updateMeteor dt m) = true →
      updateMeteor dt m ∈ (drawMeteors dt w h ms pool g).2.1) ∧
    (meteorRemoved w h (updateMeteor dt m) = false →
      updateMeteor dt m ∈ (drawMeteors dt w h ms pool g).1) ∧
    ∀ T2 : Trig, ∀ ms2 pool2 : List Meteor, ∀ g2 : Rng, ms2.length < maxMeteors →
      ∃ mNew pool3 g3, createMeteor T2 w h ms2 pool2 g2 = (ms2.concat mNew, pool3, g3) ∧
        mNew.trail = [⟨mNew.x, mNew.y⟩] ∧ mNew.age = 0 := by
  refine ⟨?_, ?_, ?_, ?_⟩
  · simp only [meteorRemoved, Bool.or_eq_true, decide_eq_true_eq]
    tauto
  · intro hr
    rw [drawMeteors_snd]
    refine List.mem_append.mpr (Or.inr ?_)
    rw [List.mem_reverse]
    exact List.mem_filter.mpr ⟨List.mem_map.mpr ⟨m, hm, rfl⟩, by simpa using hr⟩
  · intro hr
    rw [drawMeteors_fst]
    exact List.mem_filter.mpr ⟨List.mem_map.mpr ⟨m, hm, rfl⟩, by simp [hr]⟩
  · intro T2 ms2 pool2 g2 hlt
    obtain ⟨mNew, h1, h2, h3, h4, -⟩ := createMeteor_struct T2 w h ms2 pool2 g2 hlt
    refine ⟨mNew, (createMeteor T2 w h ms2 pool2 g2).2.1,
      (createMeteor T2 w h ms2 pool2 g2).2.2, ?_, h3, h4⟩
    rw [← h1]

theorem C3_removal_amended_witness :
    updateMeteor 16 cexMeteor ∈ (drawMeteors 16 800 600 [cexMeteor] [] g0).1 :=
  (C3_removal_amended 16 800 600 [cexMeteor] [] g0 cexMeteor (by simp)).2.2.1
    cexMeteor_not_removed

/-- C4: a meteor's trail length never exceeds `maxMeteorTrail` after any
frame update (and the bound is preserved over every run of the scene); a
new trail point is appended exactly when the squared displacement from the
last trail point exceeds 16 (the oldest point being shifted out first when
the buffer is at its cap), and otherwise the last trail point is updated in
place to the meteor's integrated position. -/
theorem C4_trail_invariant (dt : ℚ) (m : Meteor) (hm : m.trail.length ≤ maxMeteorTrail) :
    (updateMeteor dt m).trail.length ≤ maxMeteorTrail ∧
    (∀ T : Trig, ∀ s : Scene, ∀ es : List SpaceEvent, TrailBound s → TrailBound (runEvents T s es)) ∧
    ∀ last, m.trail.getLast? = some last →
      (((integrateMeteor dt m).x - last.x) ^ 2 + ((integrateMeteor dt m).y - last.y) ^ 2 ≤ 16 →
        (updateMeteor dt m).trail
          = m.trail.dropLast.concat ⟨(integrateMeteor dt m).x, (integrateMeteor dt m).y⟩) ∧
      (16 < ((integrateMeteor dt m).x - last.x) ^ 2 + ((integrateMeteor dt m).y - last.y) ^ 2 →
        (m.trail.length < maxMeteorTrail →
          (updateMeteor dt m).trail
            = m.trail.concat ⟨(integrateMeteor dt m).x, (integrateMeteor dt m).y⟩) ∧
        (m.trail.length = maxMeteorTrail →
          (updateMeteor dt m).trail
            = (m.trail.concat ⟨(integrateMeteor dt m).x, (integrateMeteor dt m).y⟩).tail)) := by
  refine ⟨updateMeteor_trail_length dt m hm, fun T s es => trailBound_run T s es, ?_⟩
  intro last hlast
  exact updateTrail_char (integrateMeteor dt m) last hlast

theorem C4_trail_invariant_witness :
    sampleMeteor.trail.length ≤ maxMeteorTrail ∧
    (updateMeteor 16 sampleMeteor).trail.length ≤ maxMeteorTrail :=
  ⟨by simp [sampleMeteor, maxMeteorTrail],
   (C4_trail_invariant 16 sampleMeteor (by simp [sampleMeteor, maxMeteorTrail])).1⟩

/-- C5: for a well-formed random stream, `triggerBigBang` at time `t`
replaces the particle pool (independently of its previous contents) with
exactly `min 140 maxParticles` particles, each at the surface centre with
age 0, life in `[700, 1400)`, velocity of magnitude `speed * timeScale`
with `speed` in `[80, 480)` in the direction given by a random angle
`u * π * 2`, and a warm hue in `[20, 60]`; it also sets the last-burst
timestamp to `t`. -/
theorem C5_burst (T : Trig) (t : ℚ) (s : Scene) (hg : ValidSeq s.rng.seq)
    (hpy : ∀ θ, T.cos θ ^ 2 + T.sin θ ^ 2 = 1) :
    (triggerBigBang T t s).particles.length = min 140 maxParticles ∧
    (triggerBigBang T t s).bigBangTime = some t ∧
    (∀ q : List Particle,
      (triggerBigBang T t { s with particles := q }).particles = (triggerBigBang T t s).particles) ∧
    ∀ p ∈ (triggerBigBang T t s).particles,
      p.x = s.cx ∧ p.y = s.cy ∧ p.age = 0 ∧
      700 ≤ p.life ∧ p.life < 1400 ∧
      (∃ u spd, 0 ≤ u ∧ u < 1 ∧ 80 ≤ spd ∧ spd < 480 ∧
        p.vx = T.cos (u * T.pi * 2) * spd * timeScale ∧
        p.vy = T.sin (u * T.pi * 2) * spd * timeScale ∧
        p.vx ^ 2 + p.vy ^ 2 = (spd * timeScale) ^ 2) ∧
      20 ≤ p.hue ∧ p.hue ≤ 60 := by
  refine ⟨?_, rfl, fun q => rfl, ?_⟩
  · show (mkBurst T s.cx s.cy (min maxParticles 140) s.rng).1.length = min 140 maxParticles
    rw [mkBurst_length]
    norm_num [maxParticles]
  · intro p hp
    obtain ⟨h1, h2, h3, h4, h5, ⟨u, spd, hu0, hu1, hs0, hs1, hvx, hvy⟩, h7, h8⟩ :=
      mkBurst_mem T s.cx s.cy (min maxParticles 140) s.rng hg p hp
    refine ⟨h1, h2, h3, h4, h5, ⟨u, spd, hu0, hu1, hs0, hs1, hvx, hvy, ?_⟩, h7, h8⟩
    rw [hvx, hvy]
    have hc := hpy (u * T.pi * 2)
    linear_combination spd ^ 2 * timeScale ^ 2 * hc

theorem C5_burst_witness :
    (triggerBigBang T0 100 sceneSmall).particles.length = min 140 maxParticles ∧
    (triggerBigBang T0 100 sceneSmall).bigBangTime = some 100 :=
  ⟨(C5_burst T0 100 sceneSmall (fun n => ⟨by norm_num [sceneSmall, g0], by norm_num [sceneSmall, g0]⟩)
      (fun θ => by norm_num [T0])).1,
   (C5_burst T0 100 sceneSmall (fun n => ⟨by norm_num [sceneSmall, g0], by norm_num [sceneSmall, g0]⟩)
      (fun θ => by norm_num [T0])).2.1⟩

/-- C6: one frame update of a live particle adds `600 * (dt/1000) * 0.45 *
timeScale` to vy, advances x by `vx * (dt/1000) * timeScale` and y by the
updated vy times `(dt/1000) * timeScale`, advances age by `dt`, removes the
particle exactly when its new age reaches its life (`age + dt ≥ life`), and
renders opacity `1 - age/life` and radius `size * (1 - age/life) + 0.3`. -/
theorem C6_particle_step (dt : ℚ) (p : Particle) :
    (p.age + dt < p.life →
      stepParticle dt p = some
        { p with
          age := p.age + dt
          vy := p.vy + 600 * (dt / 1000) * 0.45 * timeScale
          x := p.x + p.vx * (dt / 1000) * timeScale
          y := p.y + (p.vy + 600 * (dt / 1000) * 0.45 * timeScale) * (dt / 1000) * timeScale }) ∧
    (stepParticle dt p = none ↔ p.life ≤ p.age + dt) ∧
    (∀ q, q ∈ drawParticles dt [p] ↔ stepParticle dt p = some q) ∧
    ∀ p', stepParticle dt p = some p' →
      particleRenderAlpha p' = 1 - p'.age / p'.life ∧
      particleRenderSize p' = p'.size * (1 - p'.age / p'.life) + 0.3 ∧
      p'.age = p.age + dt ∧ p'.life = p.life ∧ p'.size = p.size := by
  refine ⟨?_, stepParticle_none_iff dt p, ?_, ?_⟩
  · intro hlt
    unfold stepParticle
    rw [if_neg (by simpa using not_le.mpr hlt)]
  · intro q
    cases hsp : stepParticle dt p with
    | none => simp [drawParticles, hsp]
    | some r => simp [drawParticles, hsp, eq_comm]
  · intro p' hp'
    obtain ⟨ha, hl, hs, -, -, -, -⟩ := stepParticle_some dt p p' hp'
    exact ⟨rfl, rfl, ha, hl, hs⟩

theorem C6_particle_step_witness : stepParticle 2000 sampleParticle = none :=
  (C6_particle_step 2000 sampleParticle).2.1.mpr (by norm_num [sampleParticle])

theorem wrap1D_bounds (w v : ℚ) (hw : 0 ≤ w) : 0 ≤ wrap1D w v ∧ wrap1D w v ≤ w := by
  unfold wrap1D
  dsimp only
  split_ifs <;> constructor <;> linarith

theorem clamp01_bounds (a : ℚ) : 0 ≤ clamp01 a ∧ clamp01 a ≤ 1 := by
  unfold clamp01
  dsimp only
  split_ifs <;> constructor <;> linarith

theorem frameMeteorSpawn_width (T : Trig) (now : ℚ) (s : Scene) :
    (frameMeteorSpawn T now s).width = s.width := by
  rw [frameMeteorSpawn_eq]
  split <;> rfl

theorem frameLightningSpawn_width (cdt : ℚ) (s : Scene) :
    (frameLightningSpawn cdt s).width = s.width := by
  rw [frameLightningSpawn_eq]
  split <;> rfl

theorem frameTrickle_width (now : ℚ) (s : Scene) :
    (frameTrickle now s).width = s.width := by
  rw [frameTrickle_eq]
  split
  · rfl
  · split
    · split <;> rfl
    · rfl

theorem framePaint_width (cdt : ℚ) (s : Scene) : (framePaint cdt s).width = s.width := rfl

theorem loopFrame_width (T : Trig) (now : ℚ) (s : Scene) :
    (loopFrame T now s).width = s.width := by
  unfold loopFrame
  rw [frameTrickle_width, framePaint_width, frameLightningSpawn_width, frameMeteorSpawn_width]
  rfl

/-- C7 counterexample: on a 100 x 100 surface with one star at x = 90
(inside the bounds), shrinking the surface to 50 x 50 and running a frame
leaves the star at x = 90 while the surface width is 50 — in space.js star
positions are never wrapped or re-seeded after init, so the claimed
"position lies within the surface bounds ... including after a resize that
shrinks the surface" fails. -/
theorem C7_counterexample :
    (stepEvent T0 (stepEvent T0 sceneSmall (SpaceEvent.setSurface 50 50 1)) (SpaceEvent.frame 16)).stars
      = [star0] ∧
    (stepEvent T0 (stepEvent T0 sceneSmall (SpaceEvent.setSurface 50 50 1)) (SpaceEvent.frame 16)).width
      = 50 ∧
    star0.x = 90 ∧ ¬ (star0.x ≤ 50) := by
  refine ⟨?_, ?_, rfl, by norm_num [star0]⟩
  · show (loopFrame T0 16 (resize 50 50 1 sceneSmall)).stars = [star0]
    rw [loopFrame_stars]
    rfl
  · show (loopFrame T0 16 (resize 50 50 1 sceneSmall)).width = 50
    rw [loopFrame_width]
    show ((max 1 ⌊(50 : ℚ)⌋ : ℤ) : ℚ) = 50
    norm_num

/-- C7 amended: in script.js every star is wrapped back into
`[0, width] x [0, height]` by each frame update and its stored opacity is
clamped into `[0, 1]` (the rendered opacity being the stored value); in
space.js the rendered opacity `clamp(_, 0.05, 1)` always lies in `[0, 1]`
and seeded star positions lie within the surface bounds at seed time, but
positions are never re-wrapped or re-seeded afterwards — frames, bursts and
resizes leave the star array unchanged — so after a shrinking resize a
space.js star may sit outside the new bounds. -/
theorem C7_star_bounds (w h u t : ℚ) (st : SStar) (T : Trig) (sp : Star) (s : Scene)
    (now a b c : ℚ) (hw : 0 ≤ w) (hh : 0 ≤ h) :
    (0 ≤ (sStepStar w h u st).x ∧ (sStepStar w h u st).x ≤ w ∧
     0 ≤ (sStepStar w h u st).y ∧ (sStepStar w h u st).y ≤ h ∧
     0 ≤ (sStepStar w h u st).alpha ∧ (sStepStar w h u st).alpha ≤ 1) ∧
    (0 ≤ st.alpha → st.alpha ≤ 1 → 0 ≤ sStarRenderAlpha st ∧ sStarRenderAlpha st ≤ 1) ∧
    (0 ≤ starRenderAlpha T t sp ∧ starRenderAlpha T t sp ≤ 1) ∧
    ((loopFrame T now s).stars = s.stars ∧ (resize a b c s).stars = s.stars ∧
     (triggerBigBang T now s).stars = s.stars) ∧
    ∀ n : ℕ, ∀ g : Rng, ValidSeq g.seq → ∀ q ∈ (initStars T w h n g).1,
      0 ≤ q.x ∧ q.x ≤ w ∧ 0 ≤ q.y ∧ q.y ≤ h := by
  refine ⟨?_, ?_, ?_, ⟨loopFrame_stars T now s, rfl, rfl⟩, ?_⟩
  · obtain ⟨hx0, hx1⟩ := wrap1D_bounds w (st.x + st.dx) hw
    obtain ⟨hy0, hy1⟩ := wrap1D_bounds h (st.y + st.dy) hh
    obtain ⟨ha0, ha1⟩ := clamp01_bounds ((sWrapStar w h st).alpha + (u - 0.5) * 0.02)
    exact ⟨hx0, hx1, hy0, hy1, ha0, ha1⟩
  · intro h0 h1
    exact ⟨h0, h1⟩
  · unfold starRenderAlpha clamp
    constructor
    · exact le_trans (by norm_num) (le_max_left _ _)
    · exact max_le (by norm_num) (min_le_left _ _)
  · intro n g hg q hq
    exact initStars_mem T w h hw hh n g hg q hq

theorem C7_star_bounds_witness :
    (0 : ℚ) ≤ 100 ∧ 0 ≤ (sStepStar 100 100 (1/2) sStar0).x ∧
    (sStepStar 100 100 (1/2) sStar0).x ≤ 100 :=
  ⟨by norm_num,
   (C7_star_bounds 100 100 (1/2) 0 sStar0 T0 star0 sceneSmall 0 0 0 0
      (by norm_num) (by norm_num)).1.1,
   (C7_star_bounds 100 100 (1/2) 0 sStar0 T0 star0 sceneSmall 0 0 0 0
      (by norm_num) (by norm_num)).1.2.1⟩

/-- C8 counterexample: calling resize with CSS width `5/2` stores logical
width 2 — the floor of the given dimension — not the claimed value
`max 1 (5/2) = 5/2`, so "sets the logical width and height to the given
dimensions clamped to a minimum of 1x1" fails on non-integer dimensions. -/
theorem C8_counterexample :
    (resize (5/2) 600 1 sceneSmall).width = 2 ∧ max 1 (5/2 : ℚ) = 5/2 ∧
    (resize (5/2) 600 1 sceneSmall).width ≠ max 1 (5/2 : ℚ) := by
  have hf : ⌊(5/2 : ℚ)⌋ = 2 := by
    rw [Int.floor_eq_iff]
    norm_num
  have h1 : (resize (5/2) 600 1 sceneSmall).width = ((max 1 ⌊(5/2 : ℚ)⌋ : ℤ) : ℚ) := rfl
  rw [h1, hf]
  norm_num

/-- C8 amended: resize always succeeds; it sets the logical width and
height to the floor of the given CSS dimensions clamped to a minimum of
1 x 1, recomputes the centre point `(width/2, height/2)` and the
size-dependent black-hole gradient, and leaves every star, meteor (live and
pooled), particle and lightning bolt — and the burst/clock/spawn trackers
and random stream — completely unchanged. -/
theorem C8_resize_amended (cw ch d : ℚ) (s : Scene) :
    (resize cw ch d s).width = ((max 1 ⌊cw⌋ : ℤ) : ℚ) ∧
    (resize cw ch d s).height = ((max 1 ⌊ch⌋ : ℤ) : ℚ) ∧
    1 ≤ (resize cw ch d s).width ∧ 1 ≤ (resize cw ch d s).height ∧
    (resize cw ch d s).cx = (resize cw ch d s).width / 2 ∧
    (resize cw ch d s).cy = (resize cw ch d s).height / 2 ∧
    (resize cw ch d s).gradient
      = createBlackHoleGradient (resize cw ch d s).width (resize cw ch d s).height
          (resize cw ch d s).cx (resize cw ch d s).cy ∧
    (resize cw ch d s).stars = s.stars ∧
    (resize cw ch d s).particles = s.particles ∧
    (resize cw ch d s).meteors = s.meteors ∧
    (resize cw ch d s).meteorPool = s.meteorPool ∧
    (resize cw ch d s).lightnings = s.lightnings ∧
    (resize cw ch d s).bigBangTime = s.bigBangTime ∧
    (resize cw ch d s).lastTime = s.lastTime ∧
    (resize cw ch d s).lastMeteorSpawn = s.lastMeteorSpawn ∧
    (resize cw ch d s).rng = s.rng := by
  refine ⟨rfl, rfl, ?_, ?_, rfl, rfl, rfl, rfl, rfl, rfl, rfl, rfl, rfl, rfl, rfl, rfl⟩
  · show (1 : ℚ) ≤ ((max 1 ⌊cw⌋ : ℤ) : ℚ)
    exact_mod_cast le_max_left 1 ⌊cw⌋
  · show (1 : ℚ) ≤ ((max 1 ⌊ch⌋ : ℤ) : ℚ)
    exact_mod_cast le_max_left 1 ⌊ch⌋

/-- C9: every meteor trail (live or pooled) stays non-empty over every run
of the scene, so reading the last trail point is always defined; and every
generated lightning path has `segments + 1` points with `segments` drawn
from `[4, 8]`, hence at least 2 points, before it is rendered — bolts in
the pool always have at least 2 points. -/
theorem C9_nonempty_access (T : Trig) (s : Scene) (es : List SpaceEvent)
    (h1 : TrailNonempty s) (h2 : BoltNonempty s) (hg : ValidSeq s.rng.seq) :
    (TrailNonempty (runEvents T s es) ∧ BoltNonempty (runEvents T s es)) ∧
    (∀ m : Meteor, m.trail ≠ [] → ∃ last, m.trail.getLast? = some last) ∧
    ∀ w hh : ℚ, ∀ ls : List Lightning, ∀ g : Rng, ValidSeq g.seq →
      ∀ L ∈ (spawnLightning w hh ls g).1, L ∈ ls ∨
        ∃ segs : ℕ, 4 ≤ segs ∧ segs ≤ 8 ∧ L.points.length = segs + 1 ∧ 2 ≤ L.points.length := by
  refine ⟨⟨trailNonempty_run T s es h1, boltNonempty_run T s es hg h2⟩, ?_, ?_⟩
  · intro m hm
    cases hl : m.trail.getLast? with
    | none => exact absurd (List.getLast?_eq_none_iff.mp hl) hm
    | some last => exact ⟨last, rfl⟩
  · intro w hh ls g hgg L hL
    rcases spawnLightning_mem w hh ls g hgg L hL with hin | ⟨segs, hs1, hs2, hlen, -⟩
    · exact Or.inl hin
    · exact Or.inr ⟨segs, hs1, hs2, hlen, by omega⟩

theorem C9_nonempty_access_witness :
    sampleMeteor.trail.getLast?.isSome = true := by
  obtain ⟨last, hl⟩ :=
    (C9_nonempty_access T0 sceneSmall [SpaceEvent.frame 16]
      ⟨by simp [sceneSmall, sampleMeteor], by simp [sceneSmall]⟩
      (by intro L hL; simp [sceneSmall, sampleBolt] at hL; simp [hL, sampleBolt])
      (by intro n; exact ⟨by norm_num [sceneSmall, g0], by norm_num [sceneSmall, g0]⟩)).2.1
      sampleMeteor (by simp [sampleMeteor])
  rw [hl]
  rfl

end Space
